import Mathlib

/-!
Verification development for the `little_boxes` ActivityPub protocol engine
(`little_boxes/activitypub.py`).

The Python module is shallowly embedded: JSON values become the inductive
type `J`, the `_data` dictionary of a `BaseActivity` instance becomes an
association list `Data`, each registered activity subclass becomes a
`ClassTag`, and every method relevant to the claims is translated into an
executable Lean function, with a `fuel` parameter standing in for Python's
unbounded recursion.  The abstract storage/transport collaborator
(`backend.py`, which is not part of the sources) is modelled from the spec
as a structure of injected functions (`Backend`), and persistence calls are
recorded as an explicit trace of `Effect`s.  Python exceptions become the
`PyError` type and `Except`-valued functions.
-/

set_option maxRecDepth 8000

namespace AP

/-- A JSON value, as manipulated by the Python module (dictionaries are
association lists in insertion order, as in Python 3.7+). -/
inductive J where
  | null
  | bool (b : Bool)
  | str (s : String)
  | num (n : Int)
  | arr (xs : List J)
  | dict (kvs : List (String × J))
  deriving Repr

mutual

def J.beq : J → J → Bool
  | .null, .null => true
  | .bool a, .bool b => a == b
  | .str a, .str b => a == b
  | .num a, .num b => a == b
  | .arr a, .arr b => J.beqList a b
  | .dict a, .dict b => J.beqKvs a b
  | _, _ => false

def J.beqList : List J → List J → Bool
  | [], [] => true
  | a :: as, b :: bs => J.beq a b && J.beqList as bs
  | _, _ => false

def J.beqKvs : List (String × J) → List (String × J) → Bool
  | [], [] => true
  | (ka, va) :: as, (kb, vb) :: bs => ka == kb && J.beq va vb && J.beqKvs as bs
  | _, _ => false

end

instance : BEq J := ⟨J.beq⟩

mutual

theorem J.beq_refl : (a : J) → J.beq a a = true
  | .null => rfl
  | .bool b => by simp [J.beq]
  | .str s => by simp [J.beq]
  | .num n => by simp [J.beq]
  | .arr xs => by simp [J.beq, J.beqList_refl xs]
  | .dict kvs => by simp [J.beq, J.beqKvs_refl kvs]

theorem J.beqList_refl : (xs : List J) → J.beqList xs xs = true
  | [] => rfl
  | a :: as => by simp [J.beqList, J.beq_refl a, J.beqList_refl as]

theorem J.beqKvs_refl : (kvs : List (String × J)) → J.beqKvs kvs kvs = true
  | [] => rfl
  | (k, v) :: as => by simp [J.beqKvs, J.beq_refl v, J.beqKvs_refl as]

end

mutual

theorem J.eq_of_beq : {a b : J} → J.beq a b = true → a = b
  | .null, .null, _ => rfl
  | .bool a, .bool b, h => by simp [J.beq] at h; simp [h]
  | .str a, .str b, h => by simp [J.beq] at h; simp [h]
  | .num a, .num b, h => by simp [J.beq] at h; simp [h]
  | .arr a, .arr b, h => by
      simp only [J.beq] at h
      have := J.eqList_of_beq h
      simp [this]
  | .dict a, .dict b, h => by
      simp only [J.beq] at h
      have := J.eqKvs_of_beq h
      simp [this]

theorem J.eqList_of_beq : {a b : List J} → J.beqList a b = true → a = b
  | [], [], _ => rfl
  | x :: xs, y :: ys, h => by
      simp only [J.beqList, Bool.and_eq_true] at h
      have h1 := J.eq_of_beq h.1
      have h2 := J.eqList_of_beq h.2
      simp [h1, h2]

theorem J.eqKvs_of_beq : {a b : List (String × J)} → J.beqKvs a b = true → a = b
  | [], [], _ => rfl
  | (ka, va) :: xs, (kb, vb) :: ys, h => by
      simp only [J.beqKvs, Bool.and_eq_true] at h
      have h0 : ka = kb := by
        have := h.1.1
        simpa using this
      have h1 := J.eq_of_beq h.1.2
      have h2 := J.eqKvs_of_beq h.2
      simp [h0, h1, h2]

end

instance : LawfulBEq J where
  eq_of_beq := J.eq_of_beq
  rfl := J.beq_refl _

instance : DecidableEq J := fun a b =>
  if h : J.beq a b = true then .isTrue (J.eq_of_beq h)
  else .isFalse (fun he => h (he ▸ J.beq_refl a))

instance instDecEqExcept {e a : Type} [DecidableEq e] [DecidableEq a] :
    DecidableEq (Except e a) := fun x y =>
  match x, y with
  | .ok v, .ok w =>
      if h : v = w then .isTrue (by rw [h])
      else .isFalse (by intro he; cases he; exact h rfl)
  | .error v, .error w =>
      if h : v = w then .isTrue (by rw [h])
      else .isFalse (by intro he; cases he; exact h rfl)
  | .ok _, .error _ => .isFalse (by intro he; cases he)
  | .error _, .ok _ => .isFalse (by intro he; cases he)

/-- The `_data` dictionary of a `BaseActivity` instance, and also any
keyword-argument dictionary (`kwargs`). -/
abbrev Data := List (String × J)

/-- Lookup `d.get(k)` on a Python dictionary (keys are unique, so first
match suffices). -/
def dGet : Data → String → Option J
  | [], _ => none
  | (k', v) :: rest, k => if k' = k then some v else dGet rest k

/-- Membership `k in d` on a Python dictionary. -/
def dHas : Data → String → Bool
  | [], _ => false
  | (k', _) :: rest, k => k' = k || dHas rest k

/-- Assignment `d[k] = v` on a Python dictionary: replaces the value in place if the
key exists (keeping insertion order), else appends the new key. -/
def dSet : Data → String → J → Data
  | [], k, v => [(k, v)]
  | (k', w) :: rest, k, v =>
      if k' = k then (k, v) :: rest else (k', w) :: dSet rest k v

/-- Deletion `del d[k]` on a Python dictionary (no-op when the key is absent; the
embedding always uses it guarded or tolerates the no-op). -/
def dDel : Data → String → Data
  | [], _ => []
  | (k', v) :: rest, k =>
      if k' = k then dDel rest k else (k', v) :: dDel rest k

/-- Python truthiness of a JSON value. -/
def truthy : J → Bool
  | .null => false
  | .bool b => b
  | .str s => s ≠ ""
  | .num n => n ≠ 0
  | .arr xs => !xs.isEmpty
  | .dict kvs => !kvs.isEmpty

/-- Embedding of `BaseActivity.__getattr__`: attribute access on `_data` that returns the
field's value when it is truthy and `None` otherwise. -/
def getattr (d : Data) (k : String) : J :=
  match dGet d k with
  | some v => if truthy v then v else .null
  | none => .null

/-- Python `str()` on the values this module feeds it (`str(None)` is the
string `None`; actual call sites only ever pass a string or `None`, the
remaining constructors are given a fixed rendering). -/
def pyStr : J → String
  | .null => "None"
  | .str s => s
  | .bool true => "True"
  | .bool false => "False"
  | .num n => toString n
  | .arr _ => "[...]"
  | .dict _ => "{...}"

/-- Embedding of `_to_list`: wrap a non-list field value into a singleton list. -/
def to_list (v : J) : List J :=
  match v with
  | .arr xs => xs
  | v => [v]

/-- Embedding of `if field in self._data: recipients.extend(_to_list(...))`. -/
def gather_field (d : Data) (f : String) : List J :=
  match dGet d f with
  | none => []
  | some v => to_list v

/-- Character-list version of Python's `startswith`. -/
def leadsWith : List Char → List Char → Bool
  | [], _ => true
  | _, [] => false
  | a :: as, b :: bs => a = b && leadsWith as bs

/-- Python `s.startswith(pat)`. -/
def starts_with (s pat : String) : Bool :=
  leadsWith pat.data s.data

/-- Substring containment, for Python's `needle in haystack` on strings. -/
def substrIn (pat : List Char) : List Char → Bool
  | [] => leadsWith pat []
  | c :: cs => leadsWith pat (c :: cs) || substrIn pat cs

/-- The Python exceptions raised by the module.  `badActivity` is
`BadActivityError`, `unexpectedActivityType` is `UnexpectedActivityTypeError`,
`notFromOutbox` is `NotFromOutboxError` (all from the package's `errors`
module, modelled from the spec since `errors.py` is not among the sources);
`valueError`, `keyError`, `typeError`, `nameError`, `attributeError` are the
Python built-ins; `fuelExhausted` is an artifact of the fuelled embedding and
never corresponds to a Python behaviour. -/
inductive PyError where
  | badActivity (msg : String)
  | unexpectedActivityType (msg : String)
  | notFromOutbox (msg : String)
  | uninitializedBackend
  | valueError (msg : String)
  | keyError (msg : String)
  | typeError (msg : String)
  | nameError (msg : String)
  | attributeError (msg : String)
  | fuelExhausted
  deriving DecidableEq, Repr

/-- The `ActivityType` enum: the closed set of supported wire `type` strings. -/
inductive ActivityType where
  | announce | block | like | create | update | person
  | orderedCollection | orderedCollectionPage | collectionPage | collection
  | note | accept | reject | follow | delete | undo | image | tombstone
  deriving DecidableEq, Repr

/-- Embedding of `ActivityType.value`: the wire string of each enum member. -/
def ActivityType.value : ActivityType → String
  | .announce => "Announce"
  | .block => "Block"
  | .like => "Like"
  | .create => "Create"
  | .update => "Update"
  | .person => "Person"
  | .orderedCollection => "OrderedCollection"
  | .orderedCollectionPage => "OrderedCollectionPage"
  | .collectionPage => "CollectionPage"
  | .collection => "Collection"
  | .note => "Note"
  | .accept => "Accept"
  | .reject => "Reject"
  | .follow => "Follow"
  | .delete => "Delete"
  | .undo => "Undo"
  | .image => "Image"
  | .tombstone => "Tombstone"

/-- Embedding of `ActivityType(s)`: enum lookup by value; `none` corresponds to the
`ValueError` Python raises for a string outside the enumeration. -/
def activity_type_of_string (s : String) : Option ActivityType :=
  if s = "Announce" then some .announce
  else if s = "Block" then some .block
  else if s = "Like" then some .like
  else if s = "Create" then some .create
  else if s = "Update" then some .update
  else if s = "Person" then some .person
  else if s = "OrderedCollection" then some .orderedCollection
  else if s = "OrderedCollectionPage" then some .orderedCollectionPage
  else if s = "CollectionPage" then some .collectionPage
  else if s = "Collection" then some .collection
  else if s = "Note" then some .note
  else if s = "Accept" then some .accept
  else if s = "Reject" then some .reject
  else if s = "Follow" then some .follow
  else if s = "Delete" then some .delete
  else if s = "Undo" then some .undo
  else if s = "Image" then some .image
  else if s = "Tombstone" then some .tombstone
  else none

/-- Embedding of `ActivityType(v)` applied to an arbitrary JSON value (as in
`ActivityType(obj["type"])`): a non-member raises `ValueError`. -/
def j_to_activity_type (v : J) : Except PyError ActivityType :=
  match v with
  | .str s =>
      match activity_type_of_string s with
      | some t => .ok t
      | none => .error (.valueError "is not a valid ActivityType")
  | _ => .error (.valueError "is not a valid ActivityType")

/-- The registered `BaseActivity` subclasses (the keys of `_ACTIVITY_CLS`). -/
inductive ClassTag where
  | person | block | collection | image | follow | accept | undo
  | like | announce | delete | update | create | tombstone | note
  deriving DecidableEq, Repr

/-- Embedding of `_ACTIVITY_CLS`: the registry populated by the metaclass.  The enum
members OrderedCollection, OrderedCollectionPage, CollectionPage and Reject
have no registered subclass. -/
def activity_cls : ActivityType → Option ClassTag
  | .announce => some .announce
  | .block => some .block
  | .like => some .like
  | .create => some .create
  | .update => some .update
  | .person => some .person
  | .collection => some .collection
  | .note => some .note
  | .accept => some .accept
  | .follow => some .follow
  | .delete => some .delete
  | .undo => some .undo
  | .image => some .image
  | .tombstone => some .tombstone
  | .orderedCollection => none
  | .orderedCollectionPage => none
  | .collectionPage => none
  | .reject => none

/-- Each subclass's `ACTIVITY_TYPE`. -/
def ClassTag.activityType : ClassTag → ActivityType
  | .person => .person
  | .block => .block
  | .collection => .collection
  | .image => .image
  | .follow => .follow
  | .accept => .accept
  | .undo => .undo
  | .like => .like
  | .announce => .announce
  | .delete => .delete
  | .update => .update
  | .create => .create
  | .tombstone => .tombstone
  | .note => .note

/-- Each subclass's `ACTIVITY_TYPE.value`. -/
def ClassTag.typeStr (tag : ClassTag) : String :=
  tag.activityType.value

/-- Each subclass's `OBJECT_REQUIRED` flag.  (`Note` assigns the misspelled
attribute `OBJECT_REQURIED`, so it inherits the base value `False`, which the
misspelled assignment also happens to be.) -/
def ClassTag.objectRequired : ClassTag → Bool
  | .person => false
  | .block => true
  | .collection => false
  | .image => false
  | .follow => true
  | .accept => true
  | .undo => true
  | .like => true
  | .announce => true
  | .delete => true
  | .update => true
  | .create => true
  | .tombstone => false
  | .note => false

/-- Each subclass's `ACTOR_REQUIRED` flag. -/
def ClassTag.actorRequired : ClassTag → Bool
  | .person => false
  | .block => true
  | .collection => false
  | .image => false
  | .follow => true
  | .accept => true
  | .undo => true
  | .like => true
  | .announce => true
  | .delete => true
  | .update => true
  | .create => true
  | .tombstone => false
  | .note => true

/-- Each subclass's `ALLOWED_OBJECT_TYPES`. -/
def ClassTag.allowedObjectTypes : ClassTag → List ActivityType
  | .follow => [.person]
  | .accept => [.follow]
  | .undo => [.follow, .like, .announce]
  | .like => [.note]
  | .announce => [.note]
  | .delete => [.note, .tombstone]
  | .update => [.note, .person]
  | .create => [.note]
  | _ => []

/-- Constant `CTX_AS`, the base ActivityStreams context URI. -/
def CTX_AS : String := "https://www.w3.org/ns/activitystreams"

/-- Constant `CTX_SECURITY`, the security context URI. -/
def CTX_SECURITY : String := "https://w3id.org/security/v1"

/-- Constant `AS_PUBLIC`, the public-audience sentinel. -/
def AS_PUBLIC : String := "https://www.w3.org/ns/activitystreams#Public"

/-- The trailing extension mapping injecting the `Hashtag` and `sensitive`
terms. -/
def extMap : J :=
  .dict [("Hashtag", .str "as:Hashtag"), ("sensitive", .str "as:sensitive")]

/-- The persistence and delivery calls the engine makes on the storage /
transport collaborator; the embedding records them as a trace. -/
inductive Effect where
  | inboxNew (actor : Data) (d : Data)
  | outboxNew (actor : Data) (d : Data)
  | newFollower (actor : Data) (d : Data)
  | undoNewFollower (actor : Data) (d : Data)
  | newFollowing (actor : Data) (d : Data)
  | undoNewFollowing (actor : Data) (d : Data)
  | inboxLike (actor : Data) (d : Data)
  | inboxUndoLike (actor : Data) (d : Data)
  | outboxLike (actor : Data) (d : Data)
  | outboxUndoLike (actor : Data) (d : Data)
  | inboxAnnounce (actor : Data) (d : Data)
  | inboxUndoAnnounce (actor : Data) (d : Data)
  | outboxAnnounce (actor : Data) (d : Data)
  | outboxUndoAnnounce (actor : Data) (d : Data)
  | inboxDelete (actor : Data) (d : Data)
  | outboxDelete (actor : Data) (d : Data)
  | inboxUpdate (actor : Data) (d : Data)
  | outboxUpdate (actor : Data) (d : Data)
  | inboxCreate (actor : Data) (d : Data)
  | outboxCreate (actor : Data) (d : Data)
  | postToRemoteInbox (actor : Data) (payload : Data) (recp : J)
  deriving DecidableEq, Repr

/-- Modelled from the spec: the injected storage/transport collaborator of
`backend.py` (not among the sources), restricted to the queries the embedded
code consults.  `fetchIRI` resolves an identifier to its JSON representation
and may fail; `outboxIsBlocked` takes the recipient actor and the sending
actor's id; `isFromOutbox` is the outbox-ownership test; `randomObjectID`
and `activityURL` mint outbox identifiers; `collectionItems` is the
collaborator-provided collection iterator (`parse_collection`, whose module
is also not among the sources); `now` is the current timestamp used by
`Create._init`.  Mutating calls are recorded as `Effect`s instead. -/
structure Backend where
  fetchIRI : J → Except PyError Data
  outboxIsBlocked : Data → J → Bool
  isFromOutbox : Data → Bool
  randomObjectID : String
  activityURL : String → String
  collectionItems : Data → List J
  now : String

/-- Modelled from the spec: `inboxGetByIRI(actor, identifier) -> activity or
absent` — the recipient actor's inbox is a list of stored activity
dictionaries and lookup is by the stored `id` field. -/
def inbox_get_by_iri (store : List Data) (iri : J) : Bool :=
  store.any (fun e => getattr e "id" == iri)

/-- Embedding of `BaseActivity._actor_id`: extract an actor reference's identifier (the
value is returned as-is; inline descriptions must be Person dictionaries
with a truthy `id`). -/
def actor_id_of (obj : J) : Except PyError J :=
  match obj with
  | .dict kvs =>
      match dGet kvs "type" with
      | none => .error (.keyError "type")
      | some t =>
          if t = J.str "Person" then
            let oid := (dGet kvs "id").getD .null
            if truthy oid then .ok oid
            else .error (.badActivity "missing object id")
          else .error (.badActivity "invalid actor field")
  | .str s => .ok (.str s)
  | _ => .error (.badActivity "invalid actor field")

/-- Embedding of `BaseActivity._validate_person`: resolve an actor reference through the
backend (any fetch failure is converted to `BadActivityError`) and return
the fetched representation's `id`. -/
def validate_person (be : Backend) (obj : J) : Except PyError J :=
  match actor_id_of obj with
  | .error e => .error e
  | .ok oid =>
      match be.fetchIRI oid with
      | .error _ => .error (.badActivity "failed to validate actor")
      | .ok actor =>
          if !truthy (J.dict actor) || !dHas actor "id" then
            .error (.badActivity "invalid actor")
          else .ok ((dGet actor "id").getD .null)

/-- The opening of the `@context` normalization in `BaseActivity.__init__`:
default to the base context when the caller supplies none, and wrap a
non-list value into a singleton list. -/
def ctx_base (ctxIn : Option J) : List J :=
  let c0 : J := match ctxIn with
    | none => .str CTX_AS
    | some v => v
  match c0 with
  | .arr xs => xs
  | v => [v]

/-- Embedding of `if CTX_SECURITY not in ctx: ctx.append(CTX_SECURITY)`. -/
def ctx_with_security (l0 : List J) : List J :=
  if l0.contains (J.str CTX_SECURITY) then l0 else l0 ++ [.str CTX_SECURITY]

/-- Injection of the `Hashtag`/`sensitive` terms: into the last context
element if it is already a mapping, else appended as a new trailing
mapping. -/
def ctx_inject_terms (l1 : List J) : List J :=
  match l1.getLast? with
  | some (J.dict kvs) =>
      l1.dropLast ++
        [J.dict (dSet (dSet kvs "Hashtag" (.str "as:Hashtag"))
          "sensitive" (.str "as:sensitive"))]
  | _ => l1 ++ [extMap]

/-- The full `@context` normalization block of `BaseActivity.__init__`. -/
def norm_ctx (ctxIn : Option J) : List J :=
  ctx_inject_terms (ctx_with_security (ctx_base ctxIn))

/-- The opening of `BaseActivity.__init__`: when a truthy `type` keyword is
present it is popped and must equal the subclass's `ACTIVITY_TYPE.value`. -/
def type_stage (tag : ClassTag) (kwargs : Data) : Except PyError Data :=
  match dGet kwargs "type" with
  | some v =>
      if truthy v then
        if v = J.str tag.typeStr then .ok (dDel kwargs "type")
        else .error (.unexpectedActivityType "expect another type")
      else .ok kwargs
  | none => .ok kwargs

/-- The `id` block of `BaseActivity.__init__`: pop a caller-supplied `id`
into `_data`. -/
def id_stage (d kwargs : Data) : Data × Data :=
  match dGet kwargs "id" with
  | some v => (dSet d "id" v, dDel kwargs "id")
  | none => (d, kwargs)

/-- The actor block of `BaseActivity.__init__`: for non-Person variants with
`ACTOR_REQUIRED`, a truthy `actor` keyword is validated through the backend
and stored normalized to its id; a Note may instead rely on `attributedTo`;
otherwise construction fails. -/
def actor_stage (be : Backend) (tag : ClassTag) (d kwargs : Data) :
    Except PyError (Data × Data) :=
  if tag.activityType ≠ ActivityType.person ∧ tag.actorRequired then
    if truthy ((dGet kwargs "actor").getD .null) then
      match validate_person be ((dGet kwargs "actor").getD .null) with
      | .error e => .error e
      | .ok aid => .ok (dSet d "actor" aid, dDel kwargs "actor")
    else if tag = .note then
      if dHas kwargs "attributedTo" then .ok (d, kwargs)
      else .error (.badActivity "Note is missing attributedTo")
    else .error (.badActivity "missing actor")
  else .ok (d, kwargs)

/-- The object block of `BaseActivity.__init__`: when `OBJECT_REQUIRED` and
an `object` keyword is present, a bare identifier string is stored as-is; an
inline dictionary must carry a `type` (and, except for Create, an `id`)
whose value is among the subclass's `ALLOWED_OBJECT_TYPES`.  (Non-string,
non-dictionary values follow Python's membership/`TypeError` behaviour.) -/
def object_stage (tag : ClassTag) (d kwargs : Data) :
    Except PyError (Data × Data) :=
  if tag.objectRequired ∧ dHas kwargs "object" then
    match (dGet kwargs "object").getD .null with
    | .str s => .ok (dSet d "object" (.str s), dDel kwargs "object")
    | .dict kvs =>
        if tag.allowedObjectTypes.isEmpty then
          .error (.unexpectedActivityType "unexpected object")
        else if !dHas kvs "type" ∨
            (tag.activityType ≠ ActivityType.create ∧ !dHas kvs "id") then
          .error (.badActivity "invalid object, missing type")
        else
          match j_to_activity_type ((dGet kvs "type").getD .null) with
          | .error e => .error e
          | .ok t =>
              if tag.allowedObjectTypes.contains t then
                .ok (dSet d "object" (.dict kvs), dDel kwargs "object")
              else .error (.unexpectedActivityType "unexpected object type")
    | .arr xs =>
        if tag.allowedObjectTypes.isEmpty then
          .error (.unexpectedActivityType "unexpected object")
        else if !xs.contains (J.str "type") then
          .error (.badActivity "invalid object, missing type")
        else .error (.typeError "unsupported object value")
    | _ =>
        if tag.allowedObjectTypes.isEmpty then
          .error (.unexpectedActivityType "unexpected object")
        else .error (.typeError "argument is not iterable")
  else .ok (d, kwargs)

/-- The closing of `BaseActivity.__init__`: no `_init` implementation in the
module returns a key list, so `allowed_keys` is always `None` and the
remaining keyword arguments with non-`None` values are merged into `_data`
in order. -/
def merge_kwargs : Data → Data → Data
  | d, [] => d
  | d, (k, v) :: rest =>
      if v = J.null then merge_kwargs d rest
      else merge_kwargs (dSet d k v) rest

/-- Embedding of `self._data["object"][k] = v`: item assignment on the stored object,
which must be a dictionary (a string raises `TypeError`, a missing object
`KeyError`). -/
def set_obj_field (d : Data) (k : String) (v : J) : Except PyError Data :=
  match dGet d "object" with
  | some (J.dict kvs) => .ok (dSet d "object" (.dict (dSet kvs k v)))
  | some _ => .error (.typeError "does not support item assignment")
  | none => .error (.keyError "object")

/-- The object-embedding step of `BaseActivity.to_dict`: when
`embed_object_id_only` is set and the (truthy) `object` field is an inline
dictionary, replace it by its `id`, raising `BadActivityError` when the
dictionary has no `id` key. -/
def to_dict_obj (data : Data) (embedObjectIdOnly : Bool) :
    Except PyError Data :=
  if truthy ((dGet data "object").getD .null) ∧ embedObjectIdOnly = true then
    match (dGet data "object").getD .null with
    | .dict kvs =>
        match dGet kvs "id" with
        | some idv => .ok (dSet data "object" idv)
        | none => .error (.badActivity "embedded object should have an id")
    | _ => .ok data
  else .ok data

/-- Embedding of `BaseActivity.to_dict`: serialize `_data`; with `embed` the `@context`
and `signature` keys are dropped; with `embed_object_id_only` a truthy
inline object dictionary is replaced by its `id` (a missing `id` raises
`BadActivityError`). -/
def to_dict (d : Data) (embed embedObjectIdOnly : Bool) :
    Except PyError Data :=
  to_dict_obj (if embed then dDel (dDel d "@context") "signature" else d)
    embedObjectIdOnly

/-- The Create-object part of one `clean_activity` pass, applied after the
top-level deletion: when the activity is a Create, remove the hidden field
from its `object` as well (string objects follow Python's substring
membership and item-deletion `TypeError` behaviour). -/
def clean_field_core (a1 : Data) (field : String) : Except PyError Data :=
  match dGet a1 "type" with
  | none => .error (.keyError "type")
  | some ty =>
      if ty = J.str "Create" then
        match dGet a1 "object" with
        | none => .error (.keyError "object")
        | some (J.dict kvs) =>
            if dHas kvs field then
              .ok (dSet a1 "object" (.dict (dDel kvs field)))
            else .ok a1
        | some (J.str s) =>
            if substrIn field.data s.data then
              .error (.typeError "string does not support item deletion")
            else .ok a1
        | some (J.arr xs) =>
            if xs.contains (J.str field) then
              .error (.typeError "list deletion by key")
            else .ok a1
        | some _ => .error (.typeError "argument is not iterable")
      else .ok a1

/-- One pass of `clean_activity` for a single hidden field: remove it from
the activity, and, when the activity is a Create, from its `object`. -/
def clean_field (a : Data) (field : String) : Except PyError Data :=
  clean_field_core (if dHas a field then dDel a field else a) field

/-- Embedding of `clean_activity`: strip the hidden-recipient fields `bto` and `bcc` from
the activity and, for a Create, from its wrapped object. -/
def clean_activity (a : Data) : Except PyError Data :=
  match clean_field a "bto" with
  | .error e => .error e
  | .ok a1 => clean_field a1 "bcc"

/-- Embedding of `BaseActivity.outbox_set_id` together with the per-class
`_outbox_set_id` hook: unconditionally store the freshly minted URI as
`_data["id"]`; `Create._outbox_set_id` additionally stamps
`uri + "/activity"` onto the wrapped object's `id` (the weak parent
back-reference propagation and the object-cache reset touch only transient
non-`_data` state). -/
def outbox_set_id (tag : ClassTag) (d : Data) (uri : String)
    (_objId : String) : Except PyError Data :=
  match tag with
  | .create =>
      match dGet (dSet d "id" (.str uri)) "object" with
      | some (J.dict kvs) =>
          .ok (dSet (dSet d "id" (.str uri)) "object"
            (.dict (dSet kvs "id" (.str (uri ++ "/activity")))))
      | some (J.str _) =>
          .error (.typeError "string does not support item assignment")
      | some _ => .error (.typeError "does not support item assignment")
      | none => .error (.keyError "object")
  | _ => .ok (dSet d "id" (.str uri))

/-- The shared-inbox-or-inbox append step of `BaseActivity.recipients` (both
the direct Person branch and the collection-member branch): with a truthy
`endpoints` mapping the `sharedInbox` value (possibly `None`) is appended
when not already present, and only when it is already present does control
fall through to the personal `inbox`, which is appended when truthy and not
already present. -/
def append_endpoint (p : Data) (out : List J) : Except PyError (List J) :=
  if truthy (getattr p "endpoints") then
    match getattr p "endpoints" with
    | .dict kvs =>
        if !out.contains ((dGet kvs "sharedInbox").getD .null) then
          .ok (out ++ [(dGet kvs "sharedInbox").getD .null])
        else if truthy (getattr p "inbox") ∧
            !out.contains (getattr p "inbox") then
          .ok (out ++ [getattr p "inbox"])
        else .ok out
    | _ => .error (.attributeError "endpoints has no attribute get")
  else if truthy (getattr p "inbox") ∧
      !out.contains (getattr p "inbox") then
    .ok (out ++ [getattr p "inbox"])
  else .ok out

/-- Embedding detail: `Announce._recipients` funnels its raw list through `list(set(...))`;
Python's set iteration order is unspecified, so the embedding determinizes
it as first-occurrence order. -/
def dedup_keep_first (xs : List J) : List J :=
  xs.foldl (fun acc x => if acc.contains x then acc else acc ++ [x]) []

/-- The per-class `_undo_inbox` hooks dispatched by
`Undo._process_from_inbox` (`Follow`, `Like` and `Announce` implement it;
every other class raises `NotImplementedError`, which the caller swallows). -/
def undo_inbox_effects (otag : ClassTag) (asActor : Data) (od : Data) :
    List Effect :=
  match otag with
  | .follow => [.undoNewFollower asActor od]
  | .like => [.inboxUndoLike asActor od]
  | .announce => [.inboxUndoAnnounce asActor od]
  | _ => []

/-- The per-class `_undo_outbox` hooks dispatched by
`Undo._post_to_outbox`. -/
def undo_outbox_effects (otag : ClassTag) (asActor : Data) (od : Data) :
    List Effect :=
  match otag with
  | .follow => [.undoNewFollowing asActor od]
  | .like => [.outboxUndoLike asActor od]
  | .announce => [.outboxUndoAnnounce asActor od]
  | _ => []

mutual

/-- Embedding of `BaseActivity.__init__` for the subclass `tag`: type check, `_data`
initialization, id/actor/object blocks, `@context` normalization, the
per-class `_init` hook, and the final merge of leftover keyword arguments
(no `_init` returns a key list, so the `allowed_keys` branch is dead). -/
def init_activity : Nat → Backend → ClassTag → Data → Except PyError Data
  | 0, _, _, _ => .error .fuelExhausted
  | fuel + 1, be, tag, kwargs0 =>
    match type_stage tag kwargs0 with
    | .error e => .error e
    | .ok kw1 =>
        match id_stage [("type", .str tag.typeStr)] kw1 with
        | (d1, kw2) =>
            match actor_stage be tag d1 kw2 with
            | .error e => .error e
            | .ok (d2, kw3) =>
                match object_stage tag d2 kw3 with
                | .error e => .error e
                | .ok (d3, kw4) =>
                    match hook_init fuel be tag
                        (dSet d3 "@context" (.arr (norm_ctx (dGet kw4 "@context"))))
                        (dDel kw4 "@context") with
                    | .error e => .error e
                    | .ok d5 => .ok (merge_kwargs d5 (dDel kw4 "@context"))

/-- The per-class `_init` hooks: `Image` pops a mandatory `url`; `Note`
defaults `sensitive` to false; `Create` back-fills the wrapped object's
`attributedTo` from the actor and its `published` timestamp (each `_init`
receives a copy of the keyword arguments, so its pops do not affect the
caller); every other class raises `NotImplementedError`, which
`__init__` swallows. -/
def hook_init : Nat → Backend → ClassTag → Data → Data → Except PyError Data
  | 0, _, _, _, _ => .error .fuelExhausted
  | fuel + 1, be, tag, d, kwargs =>
    match tag with
    | .image =>
        match dGet kwargs "url" with
        | some v => .ok (dSet d "url" v)
        | none => .error (.keyError "url")
    | .note =>
        if dHas kwargs "sensitive" then .ok d
        else .ok (dSet d "sensitive" (.bool false))
    | .create =>
        match get_object fuel be .create d with
        | .error e => .error e
        | .ok (_, od) =>
            match (if truthy (getattr od "attributedTo") then
                (Except.ok d : Except PyError Data)
              else
                match get_actor fuel be .create d with
                | .error e => .error e
                | .ok actorP =>
                    set_obj_field d "attributedTo" (getattr actorP "id")) with
            | .error e => .error e
            | .ok d1 =>
                if truthy (getattr od "published") then .ok d1
                else if truthy (getattr d1 "published") then
                  set_obj_field d1 "published" (getattr d1 "published")
                else
                  set_obj_field (dSet d1 "published" (.str be.now))
                    "published" (.str be.now)
    | _ => .ok d

/-- Embedding of `parse_activity`: convert the payload's `type` through the enum (a
non-member raises the built-in `ValueError`), compare against the expected
type, look the type up in the registry, and construct the matched subclass
on the full payload. -/
def parse_activity : Nat → Backend → Data → Option ActivityType →
    Except PyError (ClassTag × Data)
  | 0, _, _, _ => .error .fuelExhausted
  | fuel + 1, be, payload, expected =>
    match dGet payload "type" with
    | none => .error (.keyError "type")
    | some tv =>
        match j_to_activity_type tv with
        | .error e => .error e
        | .ok t =>
            match expected with
            | some e =>
                if t ≠ e then
                  .error (.unexpectedActivityType "expected another activity")
                else
                  match activity_cls t with
                  | none => .error (.badActivity "unsupported activity type")
                  | some tag =>
                      match init_activity fuel be tag payload with
                      | .error e2 => .error e2
                      | .ok d => .ok (tag, d)
            | none =>
                match activity_cls t with
                | none => .error (.badActivity "unsupported activity type")
                | some tag =>
                    match init_activity fuel be tag payload with
                    | .error e2 => .error e2
                    | .ok d => .ok (tag, d)

/-- Embedding of `BaseActivity.get_object` for an activity of class `tag` with `_data`
`d`: an inline dictionary is parsed directly; a reference is fetched through
the backend and its type checked against `ALLOWED_OBJECT_TYPES` before
parsing.  (The `__obj` memoization cache is omitted: the backend is a pure
function, so the cached and recomputed values coincide.) -/
def get_object : Nat → Backend → ClassTag → Data →
    Except PyError (ClassTag × Data)
  | 0, _, _, _ => .error .fuelExhausted
  | fuel + 1, be, tag, d =>
    match dGet d "object" with
    | none => .error (.keyError "object")
    | some (J.dict kvs) => parse_activity fuel be kvs none
    | some v =>
        match be.fetchIRI v with
        | .error e => .error e
        | .ok obj =>
            match j_to_activity_type ((dGet obj "type").getD .null) with
            | .error e => .error e
            | .ok t =>
                if tag.allowedObjectTypes.contains t then
                  parse_activity fuel be obj none
                else .error (.unexpectedActivityType "invalid object type")

/-- Embedding of `BaseActivity.get_actor`: read the `actor` field (a Note falls back to
`str(_data.get("attributedTo"))`), extract its id, fetch the actor's
representation and construct a `Person` on it. -/
def get_actor : Nat → Backend → ClassTag → Data → Except PyError Data
  | 0, _, _, _ => .error .fuelExhausted
  | fuel + 1, be, tag, d =>
    let actor0 := (dGet d "actor").getD .null
    let actorE : Except PyError J :=
      if !truthy actor0 ∧ tag.actorRequired then
        if tag = .note then .ok (.str (pyStr ((dGet d "attributedTo").getD .null)))
        else .error (.badActivity "failed to fetch actor")
      else .ok actor0
    match actorE with
    | .error e => .error e
    | .ok actor =>
        match actor with
        | .str _ | .dict _ =>
            match actor_id_of actor with
            | .error e => .error e
            | .ok aid =>
                match be.fetchIRI aid with
                | .error e => .error e
                | .ok raw => init_activity fuel be .person raw
        | _ => .error (.badActivity "invalid actor")

end

/-- Embedding of `Delete._get_actual_object`: resolve the object, and when it is a
Tombstone re-fetch the live representation behind its id and parse it. -/
def get_actual_object (fuel : Nat) (be : Backend) (d : Data) :
    Except PyError (ClassTag × Data) :=
  match get_object fuel be .delete d with
  | .error e => .error e
  | .ok (otag, od) =>
      if otag = .tombstone then
        match be.fetchIRI (getattr od "id") with
        | .error e => .error e
        | .ok raw => parse_activity fuel be raw none
      else .ok (otag, od)

/-- Embedding of `Follow.build_accept`: construct
`Accept(actor=self.get_object().id, object=self.to_dict(embed=True))`. -/
def build_accept (fuel : Nat) (be : Backend) (d : Data) :
    Except PyError Data :=
  match get_object fuel be .follow d with
  | .error e => .error e
  | .ok (_, od) =>
      match to_dict d true false with
      | .error e => .error e
      | .ok emb =>
          init_activity fuel be .accept
            [("actor", getattr od "id"), ("object", .dict emb)]

/-- The per-class `_recipients` methods (raw recipient references before
resolution).  `Follow` names its object; `Accept`/`Like` name their object's
actor; `Undo` names the referenced Follow's object or the referenced
activity's object's actor; `Announce` adds its `to`/`cc` lists and dedups
through `list(set(...))`; `Delete` delegates to the actual object;
`Create` adds its addressing fields to the wrapped object's recipients;
`Note` gathers its addressing fields; every other class inherits the empty
base implementation. -/
def recipients_raw : Nat → Backend → ClassTag → Data →
    Except PyError (List J)
  | 0, _, _, _ => .error .fuelExhausted
  | fuel + 1, be, tag, d =>
    match tag with
    | .follow =>
        match get_object fuel be .follow d with
        | .error e => .error e
        | .ok (_, od) => .ok [getattr od "id"]
    | .accept =>
        match get_object fuel be .accept d with
        | .error e => .error e
        | .ok (otag, od) =>
            match get_actor fuel be otag od with
            | .error e => .error e
            | .ok p => .ok [getattr p "id"]
    | .like =>
        match get_object fuel be .like d with
        | .error e => .error e
        | .ok (otag, od) =>
            match get_actor fuel be otag od with
            | .error e => .error e
            | .ok p => .ok [getattr p "id"]
    | .undo =>
        match get_object fuel be .undo d with
        | .error e => .error e
        | .ok (otag, od) =>
            if otag = .follow then
              match get_object fuel be otag od with
              | .error e => .error e
              | .ok (_, ood) => .ok [getattr ood "id"]
            else
              match get_object fuel be otag od with
              | .error e => .error e
              | .ok (ootag, ood) =>
                  match get_actor fuel be ootag ood with
                  | .error e => .error e
                  | .ok p => .ok [getattr p "id"]
    | .announce =>
        match get_object fuel be .announce d with
        | .error e => .error e
        | .ok (otag, od) =>
            match get_actor fuel be otag od with
            | .error e => .error e
            | .ok p =>
                .ok (dedup_keep_first
                  ([getattr p "id"] ++ gather_field d "to" ++ gather_field d "cc"))
    | .delete =>
        match get_actual_object fuel be d with
        | .error e => .error e
        | .ok (atag, ad) => recipients_raw fuel be atag ad
    | .create =>
        match get_object fuel be .create d with
        | .error e => .error e
        | .ok (otag, od) =>
            match recipients_raw fuel be otag od with
            | .error e => .error e
            | .ok sub =>
                .ok (gather_field d "to" ++ gather_field d "cc" ++
                  gather_field d "bto" ++ gather_field d "bcc" ++ sub)
    | .note =>
        .ok (gather_field d "to" ++ gather_field d "cc" ++
          gather_field d "bto" ++ gather_field d "bcc")
    | _ => .ok []

/-- The collection-member loop of `BaseActivity.recipients`: each member
that is not the actor or the public sentinel is fetched and parsed as a
Person inside a `try` that swallows only `UnexpectedActivityTypeError`;
because `col_actor` is a function-scoped Python variable, a swallowed
failure silently reuses the previously parsed member (and the very first
failure would raise `NameError`). -/
def col_loop (fuel : Nat) (be : Backend) (actorIdJ : J) :
    List J → List J → Option Data → Except PyError (List J × Option Data)
  | [], out, colA => .ok (out, colA)
  | it :: rest, out, colA =>
      if it = actorIdJ ∨ it = J.str AS_PUBLIC then
        col_loop fuel be actorIdJ rest out colA
      else
        match (match be.fetchIRI it with
          | .error (.unexpectedActivityType _) =>
              (Except.ok colA : Except PyError (Option Data))
          | .error e => .error e
          | .ok raw =>
              match init_activity fuel be .person raw with
              | .error (.unexpectedActivityType _) => .ok colA
              | .error e => .error e
              | .ok p => .ok (some p)) with
        | .error e => .error e
        | .ok none => .error (.nameError "col_actor")
        | .ok (some p) =>
            match append_endpoint p out with
            | .error e => .error e
            | .ok out1 => col_loop fuel be actorIdJ rest out1 (some p)

/-- The main loop of `BaseActivity.recipients`: skip the actor, the public
sentinel and `None`; fetch every other reference; a Person contributes its
shared inbox or inbox via `append_endpoint`; a Collection or
OrderedCollection is expanded through the collection iterator; anything
else raises `BadActivityError`.  (The `isinstance(recipient, Person)`
branch is unreachable: every `_recipients` implementation returns
identifier values, never Person instances.) -/
def recip_loop (fuel : Nat) (be : Backend) (actorIdJ : J) :
    List J → List J → Option Data → Except PyError (List J × Option Data)
  | [], out, colA => .ok (out, colA)
  | r :: rest, out, colA =>
      if r = actorIdJ ∨ r = J.str AS_PUBLIC ∨ r = J.null then
        recip_loop fuel be actorIdJ rest out colA
      else
        match be.fetchIRI r with
        | .error e => .error e
        | .ok raw =>
            match dGet raw "type" with
            | none => .error (.keyError "type")
            | some ty =>
                if ty = J.str "Person" then
                  match init_activity fuel be .person raw with
                  | .error e => .error e
                  | .ok p =>
                      match append_endpoint p out with
                      | .error e => .error e
                      | .ok out1 => recip_loop fuel be actorIdJ rest out1 colA
                else if ty = J.str "Collection" ∨ ty = J.str "OrderedCollection" then
                  match col_loop fuel be actorIdJ (be.collectionItems raw) out colA with
                  | .error e => .error e
                  | .ok (out1, colA1) => recip_loop fuel be actorIdJ rest out1 colA1
                else .error (.badActivity "failed to parse recipient")

/-- Embedding of `BaseActivity.recipients`: resolve the raw per-class recipient
references into the deduplicated list of deliverable endpoints. -/
def recipients (fuel : Nat) (be : Backend) (tag : ClassTag) (d : Data) :
    Except PyError (List J) :=
  match recipients_raw fuel be tag d with
  | .error e => .error e
  | .ok refs =>
      match get_actor fuel be tag d with
      | .error e => .error e
      | .ok actorP =>
          match recip_loop fuel be (getattr actorP "id") refs [] none with
          | .error e => .error e
          | .ok (out, _) => .ok out

/-- The per-class `_pre_process_from_inbox` hooks: `Accept` has an explicit
`pass`; `Undo`, `Delete` and `Update` enforce that the activity's actor
equals the referenced object's actor, raising `BadActivityError` (the
spec's AuthorizationMismatch) otherwise; `none` models the
`NotImplementedError` that `process_from_inbox` swallows. -/
def hook_pre_inbox : Nat → Backend → ClassTag → Data →
    Option (Except PyError Unit)
  | 0, _, _, _ => some (.error .fuelExhausted)
  | fuel + 1, be, tag, d =>
    match tag with
    | .accept => some (.ok ())
    | .undo =>
        some (match get_object fuel be .undo d with
          | .error e => .error e
          | .ok (otag, od) =>
              match get_actor fuel be .undo d with
              | .error e => .error e
              | .ok actorP =>
                  match get_actor fuel be otag od with
                  | .error e => .error e
                  | .ok objActorP =>
                      if getattr actorP "id" ≠ getattr objActorP "id" then
                        .error (.badActivity "cannot update")
                      else .ok ())
    | .delete =>
        some (match get_actual_object fuel be d with
          | .error e => .error e
          | .ok (atag, ad) =>
              match get_actor fuel be .delete d with
              | .error e => .error e
              | .ok actorP =>
                  match get_actor fuel be atag ad with
                  | .error e => .error e
                  | .ok objActorP =>
                      if getattr actorP "id" ≠ getattr objActorP "id" then
                        .error (.badActivity "cannot delete")
                      else .ok ())
    | .update =>
        some (match get_object fuel be .update d with
          | .error e => .error e
          | .ok (otag, od) =>
              match get_actor fuel be .update d with
              | .error e => .error e
              | .ok actorP =>
                  match get_actor fuel be otag od with
                  | .error e => .error e
                  | .ok objActorP =>
                      if getattr actorP "id" ≠ getattr objActorP "id" then
                        .error (.badActivity "cannot update")
                      else .ok ())
    | _ => none

/-- The per-class `_pre_post_to_outbox` hooks: `Undo`, `Delete` and `Update`
enforce outbox ownership via the backend, raising `NotFromOutboxError`
otherwise (`Delete` first resolves the actual object, which may itself
fail). -/
def hook_pre_outbox (fuel : Nat) (be : Backend) (tag : ClassTag) (d : Data) :
    Option (Except PyError Unit) :=
  match tag with
  | .undo =>
      some (if be.isFromOutbox d then .ok ()
        else .error (.notFromOutbox "object is not owned by this instance"))
  | .delete =>
      some (match get_actual_object fuel be d with
        | .error e => .error e
        | .ok _ =>
            if be.isFromOutbox d then .ok ()
            else .error (.notFromOutbox "object is not owned by this instance"))
  | .update =>
      some (if be.isFromOutbox d then .ok ()
        else .error (.notFromOutbox "object is not owned by this instance"))
  | _ => none

/-- The per-class `_post_to_outbox` hooks: `Follow` is an explicit pass (its
side effect is deferred to the Accept), `Like`/`Announce`/`Delete`/`Update`/
`Create` record their outbox side effect, `Undo` dispatches the referenced
activity's `_undo_outbox`; `none` models `NotImplementedError`. -/
def hook_post_outbox (fuel : Nat) (be : Backend) (asActorP : Data)
    (tag : ClassTag) (d : Data) : Option (Option PyError × List Effect) :=
  match tag with
  | .follow => some (none, [])
  | .like => some (none, [.outboxLike asActorP d])
  | .announce => some (none, [.outboxAnnounce asActorP d])
  | .delete => some (none, [.outboxDelete asActorP d])
  | .update => some (none, [.outboxUpdate asActorP d])
  | .create => some (none, [.outboxCreate asActorP d])
  | .undo =>
      some (match get_object fuel be .undo d with
        | .error e => (some e, [])
        | .ok (otag, od) => (none, undo_outbox_effects otag asActorP od))
  | _ => none

/-- The result of `post_to_outbox`: the propagated exception if any, the
trace of collaborator calls, and the activity's `_data` after identifier
assignment. -/
structure OutRes where
  err : Option PyError
  trace : List Effect
  dat : Data
  deriving DecidableEq, Repr

/-- Embedding of `BaseActivity.post_to_outbox`: mint an object id and assign the
activity's URL as its `id`, run the pre-outbox hook, persist into the
actor's outbox, resolve recipients, serialize once through `clean_activity`,
run the post-outbox hook, then deliver the identical payload to every
resolved recipient. -/
def post_to_outbox (fuel : Nat) (be : Backend) (tag : ClassTag) (d : Data) :
    OutRes :=
  match outbox_set_id tag d (be.activityURL be.randomObjectID)
      be.randomObjectID with
  | .error e => ⟨some e, [], d⟩
  | .ok d1 =>
      match hook_pre_outbox fuel be tag d1 with
      | some (.error e) => ⟨some e, [], d1⟩
      | _ =>
          match get_actor fuel be tag d1 with
          | .error e => ⟨some e, [], d1⟩
          | .ok actorP =>
              match recipients fuel be tag d1 with
              | .error e => ⟨some e, [Effect.outboxNew actorP d1], d1⟩
              | .ok recps =>
                  match clean_activity d1 with
                  | .error e => ⟨some e, [Effect.outboxNew actorP d1], d1⟩
                  | .ok act =>
                      match hook_post_outbox fuel be actorP tag d1 with
                      | some (some e, tr1) =>
                          ⟨some e, [Effect.outboxNew actorP d1] ++ tr1, d1⟩
                      | some (none, tr1) =>
                          ⟨none,
                            [Effect.outboxNew actorP d1] ++ tr1 ++
                              recps.map (fun r => .postToRemoteInbox actorP act r),
                            d1⟩
                      | none =>
                          ⟨none,
                            [Effect.outboxNew actorP d1] ++
                              recps.map (fun r => .postToRemoteInbox actorP act r),
                            d1⟩

/-- The per-class `_process_from_inbox` hooks: `Follow` builds an Accept,
posts it to the outbox and records the new follower; `Accept` records the
new following when its object is a Follow; `Undo` dispatches the referenced
activity's `_undo_inbox`; `Like`/`Delete`/`Update`/`Create` record their
inbox side effect; `Announce` first drops (without recording) a legacy
non-URI object reference; `none` models `NotImplementedError`. -/
def hook_post_inbox (fuel : Nat) (be : Backend) (asActor : Data)
    (tag : ClassTag) (d : Data) : Option (Option PyError × List Effect) :=
  match tag with
  | .follow =>
      some (match build_accept fuel be d with
        | .error e => (some e, [])
        | .ok acc =>
            let r := post_to_outbox fuel be .accept acc
            match r.err with
            | some e => (some e, r.trace)
            | none => (none, r.trace ++ [.newFollower asActor d]))
  | .accept =>
      some (match get_object fuel be .accept d with
        | .error e => (some e, [])
        | .ok (otag, od) =>
            if otag = .follow then (none, [.newFollowing asActor od])
            else (none, []))
  | .undo =>
      some (match get_object fuel be .undo d with
        | .error e => (some e, [])
        | .ok (otag, od) => (none, undo_inbox_effects otag asActor od))
  | .like => some (none, [.inboxLike asActor d])
  | .announce =>
      some (match dGet d "object" with
        | none => (some (.keyError "object"), [])
        | some (J.str s) =>
            if !starts_with s "http" then (none, [])
            else (none, [.inboxAnnounce asActor d])
        | some _ => (none, [.inboxAnnounce asActor d]))
  | .delete => some (none, [.inboxDelete asActor d])
  | .update => some (none, [.inboxUpdate asActor d])
  | .create => some (none, [.inboxCreate asActor d])
  | _ => none

/-- The result of `process_from_inbox`: the propagated exception if any,
the trace of collaborator calls, and the recipient actor's inbox store
after the call. -/
structure InRes where
  err : Option PyError
  trace : List Effect
  store : List Data
  deriving DecidableEq, Repr

/-- Embedding of `BaseActivity.process_from_inbox`: resolve the sending actor, silently
drop when the sender is blocked by the recipient or when an activity with
the same id is already in the recipient's inbox, run the pre-inbox hook,
persist into the recipient's inbox, then run the post-inbox hook. -/
def process_from_inbox (fuel : Nat) (be : Backend) (store : List Data)
    (asActor : Data) (tag : ClassTag) (d : Data) : InRes :=
  match get_actor fuel be tag d with
  | .error e => ⟨some e, [], store⟩
  | .ok actorP =>
      if be.outboxIsBlocked asActor (getattr actorP "id") then ⟨none, [], store⟩
      else if inbox_get_by_iri store (getattr d "id") then ⟨none, [], store⟩
      else
        match hook_pre_inbox fuel be tag d with
        | some (.error e) => ⟨some e, [], store⟩
        | _ =>
            let store1 := store ++ [d]
            let tr0 := [Effect.inboxNew asActor d]
            match hook_post_inbox fuel be asActor tag d with
            | some (some e, tr1) => ⟨some e, tr0 ++ tr1, store1⟩
            | some (none, tr1) => ⟨none, tr0 ++ tr1, store1⟩
            | none => ⟨none, tr0, store1⟩

/-! Concrete test fixtures: small actors, backends and payloads used to
instantiate the theorems below on explicit inputs. -/

/-- Wire representation of actor `a` (with a plain personal inbox). -/
def pA : Data := [("type", .str "Person"), ("id", .str "a"), ("inbox", .str "ia")]

/-- Wire representation of actor `b` (with a plain personal inbox). -/
def pB : Data := [("type", .str "Person"), ("id", .str "b"), ("inbox", .str "ib")]

/-- Wire representation of actor `c` (a Note author). -/
def pC : Data := [("type", .str "Person"), ("id", .str "c"), ("inbox", .str "ic")]

/-- Wire representation of actor `d0` (a third party). -/
def pD : Data := [("type", .str "Person"), ("id", .str "d0"), ("inbox", .str "id0")]

/-- A recipient whose `endpoints` mapping is non-empty but carries no
`sharedInbox` entry. -/
def pR1 : Data :=
  [("type", .str "Person"), ("id", .str "r1"), ("inbox", .str "ib1"),
   ("endpoints", .dict [("x", .str "y")])]

/-- A recipient declaring the shared inbox `S`. -/
def pR2 : Data :=
  [("type", .str "Person"), ("id", .str "r2"), ("inbox", .str "ib2"),
   ("endpoints", .dict [("sharedInbox", .str "S")])]

/-- A second, distinct recipient declaring the same shared inbox `S`. -/
def pR3 : Data :=
  [("type", .str "Person"), ("id", .str "r3"), ("inbox", .str "ib3"),
   ("endpoints", .dict [("sharedInbox", .str "S")])]

/-- A backend resolving the fixture actors, with nothing blocked, a fixed
minted object id `o1` and URL scheme `u/<id>`. -/
def be0 : Backend where
  fetchIRI := fun v =>
    if v = J.str "a" then .ok pA
    else if v = J.str "b" then .ok pB
    else if v = J.str "c" then .ok pC
    else if v = J.str "d0" then .ok pD
    else if v = J.str "r1" then .ok pR1
    else if v = J.str "r2" then .ok pR2
    else if v = J.str "r3" then .ok pR3
    else .error (.valueError "not found")
  outboxIsBlocked := fun _ _ => false
  isFromOutbox := fun _ => true
  randomObjectID := "o1"
  activityURL := fun s => "u/" ++ s
  collectionItems := fun _ => []
  now := "t0"

/-- A backend identical to `be0` except that it reports every sender as
blocked. -/
def beBlocked : Backend :=
  { be0 with outboxIsBlocked := fun _ _ => true }

/-- A backend with no resolvable identifiers at all (sufficient for the
constructions that never touch the backend). -/
def beT : Backend where
  fetchIRI := fun _ => .error (.valueError "not found")
  outboxIsBlocked := fun _ _ => false
  isFromOutbox := fun _ => false
  randomObjectID := "o0"
  activityURL := fun s => s
  collectionItems := fun _ => []
  now := "t0"

/-- The default normalized context list. -/
def ctxDefault : J := .arr [.str CTX_AS, .str CTX_SECURITY, extMap]

/-- Wire payload of a Follow from `a` of `b`. -/
def followPayload : Data :=
  [("type", .str "Follow"), ("id", .str "f1"), ("actor", .str "a"),
   ("object", .str "b")]

/-- The `_data` of the parsed Follow from `a` of `b`. -/
def fd : Data :=
  [("type", .str "Follow"), ("id", .str "f1"), ("actor", .str "a"),
   ("object", .str "b"), ("@context", ctxDefault)]

/-- The `_data` of a parsed Follow from `a` of `a` itself. -/
def fdSelf : Data :=
  [("type", .str "Follow"), ("id", .str "fs1"), ("actor", .str "a"),
   ("object", .str "a"), ("@context", ctxDefault)]

/-- The `_data` of a parsed Note by `c` addressed to `r1`, `r2` and `r3`. -/
def noteR : Data :=
  [("type", .str "Note"), ("id", .str "n1"), ("attributedTo", .str "c"),
   ("to", .arr [.str "r1", .str "r2", .str "r3"]), ("@context", ctxDefault)]

/-- The `_data` of a parsed Like by `a` of a note reference. -/
def likeD : Data :=
  [("type", .str "Like"), ("id", .str "l1"), ("actor", .str "a"),
   ("object", .str "n1"), ("@context", ctxDefault)]

/-- The `_data` of a parsed Announce by `a` of a legacy (non-URI) OStatus
reference. -/
def annD : Data :=
  [("type", .str "Announce"), ("id", .str "an1"), ("actor", .str "a"),
   ("object", .str "tag:x"), ("@context", ctxDefault)]

/-- The embedded (`to_dict(embed=True)`) form of `fd`. -/
def fdEmb : Data :=
  [("type", .str "Follow"), ("id", .str "f1"), ("actor", .str "a"),
   ("object", .str "b")]

/-- The `_data` of a parsed Undo by `d0` whose object is the embedded
Follow by `a` — an ownership violation. -/
def undoD : Data :=
  [("type", .str "Undo"), ("id", .str "un1"), ("actor", .str "d0"),
   ("object", .dict fdEmb), ("@context", ctxDefault)]

/-- Fixture `Person(**pA)`: the `_data` of the Person constructed on the fetched
representation of `a`. -/
def pAi : Data :=
  [("type", .str "Person"), ("id", .str "a"), ("@context", ctxDefault),
   ("inbox", .str "ia")]

/-- Fixture `Person(**pB)`. -/
def pBi : Data :=
  [("type", .str "Person"), ("id", .str "b"), ("@context", ctxDefault),
   ("inbox", .str "ib")]

/-- Fixture `Person(**pD)`. -/
def pDi : Data :=
  [("type", .str "Person"), ("id", .str "d0"), ("@context", ctxDefault),
   ("inbox", .str "id0")]

/-- The Accept auto-built by `Follow._process_from_inbox` on `fd`, before
outbox identifier assignment. -/
def acc0 : Data :=
  [("type", .str "Accept"), ("actor", .str "b"), ("object", .dict fdEmb),
   ("@context", ctxDefault)]

/-- The same Accept after `post_to_outbox` assigned its id. -/
def acc1 : Data :=
  [("type", .str "Accept"), ("actor", .str "b"), ("object", .dict fdEmb),
   ("@context", ctxDefault), ("id", .str "u/o1")]

/-- The Follow `fd` after `post_to_outbox` overwrote its id with the URL
minted by `be0`. -/
def fdOut : Data :=
  [("type", .str "Follow"), ("id", .str "u/o1"), ("actor", .str "a"),
   ("object", .str "b"), ("@context", ctxDefault)]

/-! Dictionary-primitive lemmas. -/

theorem dGet_dSet_self (d : Data) (k : String) (v : J) :
    dGet (dSet d k v) k = some v := by
  induction d with
  | nil => simp [dSet, dGet]
  | cons kv rest ih =>
      obtain ⟨k', w⟩ := kv
      by_cases h : k' = k <;> simp [dSet, dGet, h, ih]

theorem dGet_dSet_ne (d : Data) (k k' : String) (v : J) (h : k' ≠ k) :
    dGet (dSet d k v) k' = dGet d k' := by
  have hk : k ≠ k' := Ne.symm h
  induction d with
  | nil => simp [dSet, dGet, hk]
  | cons kv rest ih =>
      obtain ⟨k0, w⟩ := kv
      by_cases h0 : k0 = k
      · subst h0
        simp [dSet, dGet, hk]
      · simp [dSet, dGet, h0, ih]

theorem dHas_dSet_ne (d : Data) (k k' : String) (v : J) (h : k' ≠ k) :
    dHas (dSet d k v) k' = dHas d k' := by
  have hk : k ≠ k' := Ne.symm h
  induction d with
  | nil => simp [dSet, dHas, hk]
  | cons kv rest ih =>
      obtain ⟨k0, w⟩ := kv
      by_cases h0 : k0 = k
      · subst h0
        simp [dSet, dHas, hk]
      · simp [dSet, dHas, h0, ih]

theorem dHas_dDel_self (d : Data) (k : String) :
    dHas (dDel d k) k = false := by
  induction d with
  | nil => simp [dDel, dHas]
  | cons kv rest ih =>
      obtain ⟨k0, w⟩ := kv
      by_cases h0 : k0 = k <;> simp [dDel, dHas, h0, ih]

theorem dGet_dDel_ne (d : Data) (k k' : String) (h : k' ≠ k) :
    dGet (dDel d k) k' = dGet d k' := by
  have hk : k ≠ k' := Ne.symm h
  induction d with
  | nil => simp [dDel]
  | cons kv rest ih =>
      obtain ⟨k0, w⟩ := kv
      by_cases h0 : k0 = k
      · subst h0
        simp [dDel, dGet, hk, ih]
      · simp [dDel, dGet, h0, ih]

theorem dHas_dDel_ne (d : Data) (k k' : String) (h : k' ≠ k) :
    dHas (dDel d k) k' = dHas d k' := by
  have hk : k ≠ k' := Ne.symm h
  induction d with
  | nil => simp [dDel]
  | cons kv rest ih =>
      obtain ⟨k0, w⟩ := kv
      by_cases h0 : k0 = k
      · subst h0
        simp [dDel, dHas, hk, ih]
      · simp [dDel, dHas, h0, ih]

theorem dGet_none_of_dHas_false (d : Data) (k : String)
    (h : dHas d k = false) : dGet d k = none := by
  induction d with
  | nil => simp [dGet]
  | cons kv rest ih =>
      obtain ⟨k0, w⟩ := kv
      simp [dHas] at h
      simp [dGet, h.1, ih h.2]

theorem dHas_false_of_dGet_none (d : Data) (k : String)
    (h : dGet d k = none) : dHas d k = false := by
  induction d with
  | nil => simp [dHas]
  | cons kv rest ih =>
      obtain ⟨k0, w⟩ := kv
      by_cases h0 : k0 = k
      · simp [dGet, h0] at h
      · simp [dGet, h0] at h
        simp [dHas, h0, ih h]

theorem dHas_dSet_false (d : Data) (k k' : String) (v : J) (h : k' ≠ k)
    (h2 : dHas d k' = false) : dHas (dSet d k v) k' = false := by
  rw [dHas_dSet_ne d k k' v h]; exact h2

theorem dHas_dDel_false (d : Data) (k k' : String) (h2 : dHas d k' = false) :
    dHas (dDel d k) k' = false := by
  by_cases h : k' = k
  · subst h; exact dHas_dDel_self d k'
  · rw [dHas_dDel_ne d k k' h]; exact h2

theorem merge_kwargs_dGet (kw : Data) (d : Data) (k : String)
    (h : dHas kw k = false) : dGet (merge_kwargs d kw) k = dGet d k := by
  induction kw generalizing d with
  | nil => simp [merge_kwargs]
  | cons kv rest ih =>
      obtain ⟨k0, v⟩ := kv
      simp [dHas] at h
      have hk : k ≠ k0 := fun he => h.1 he.symm
      by_cases hv : v = J.null
      · simp [merge_kwargs, hv, ih _ h.2]
      · simp only [merge_kwargs, if_neg hv]
        rw [ih _ h.2, dGet_dSet_ne _ _ _ _ hk]

/-! Context-normalization lemmas. -/

theorem ctx_with_security_ne_nil (l0 : List J) : ctx_with_security l0 ≠ [] := by
  unfold ctx_with_security
  split
  · rename_i h
    intro he
    subst he
    simp at h
  · simp

theorem mem_security_ctx_with_security (l0 : List J) :
    J.str CTX_SECURITY ∈ ctx_with_security l0 := by
  unfold ctx_with_security
  split
  · rename_i h
    simpa using h
  · simp

theorem ctx_inject_terms_last (l1 : List J) :
    ∃ kvs, (ctx_inject_terms l1).getLast? = some (.dict kvs) ∧
      dGet kvs "Hashtag" = some (.str "as:Hashtag") ∧
      dGet kvs "sensitive" = some (.str "as:sensitive") := by
  unfold ctx_inject_terms
  split
  · rename_i kvs _
    refine ⟨dSet (dSet kvs "Hashtag" (.str "as:Hashtag")) "sensitive"
      (.str "as:sensitive"), ?_, ?_, ?_⟩
    · exact List.getLast?_concat _
    · rw [dGet_dSet_ne _ _ _ _ (by decide), dGet_dSet_self]
    · rw [dGet_dSet_self]
  · refine ⟨[("Hashtag", .str "as:Hashtag"), ("sensitive", .str "as:sensitive")],
      ?_, by decide, by decide⟩
    exact List.getLast?_concat _

theorem ctx_inject_terms_ne_nil (l1 : List J) : ctx_inject_terms l1 ≠ [] := by
  obtain ⟨kvs, hlast, -, -⟩ := ctx_inject_terms_last l1
  intro he
  rw [he] at hlast
  simp at hlast

theorem mem_str_ctx_inject_terms {s : String} {l1 : List J}
    (h : J.str s ∈ l1) : J.str s ∈ ctx_inject_terms l1 := by
  unfold ctx_inject_terms
  split
  · rename_i kvs heq
    have := List.dropLast_append_getLast? _ heq
    rw [← this] at h
    rcases List.mem_append.mp h with h1 | h1
    · exact List.mem_append_left _ h1
    · simp at h1
  · exact List.mem_append_left _ h

theorem norm_ctx_security (ctxIn : Option J) :
    J.str CTX_SECURITY ∈ norm_ctx ctxIn :=
  mem_str_ctx_inject_terms (mem_security_ctx_with_security _)

theorem norm_ctx_last (ctxIn : Option J) :
    ∃ kvs, (norm_ctx ctxIn).getLast? = some (.dict kvs) ∧
      dGet kvs "Hashtag" = some (.str "as:Hashtag") ∧
      dGet kvs "sensitive" = some (.str "as:sensitive") :=
  ctx_inject_terms_last _

theorem norm_ctx_ne_nil (ctxIn : Option J) : norm_ctx ctxIn ≠ [] :=
  ctx_inject_terms_ne_nil _

theorem norm_ctx_none :
    norm_ctx none = [.str CTX_AS, .str CTX_SECURITY, extMap] := by decide

/-! `@context` preservation through the constructor stages. -/

theorem type_stage_ctx {tag : ClassTag} {kwargs kw1 : Data}
    (h : type_stage tag kwargs = .ok kw1) :
    dGet kw1 "@context" = dGet kwargs "@context" := by
  unfold type_stage at h
  split at h
  · split at h
    · split at h
      · cases h
        exact dGet_dDel_ne _ _ _ (by decide)
      · cases h
    · cases h
      rfl
  · cases h
    rfl

theorem id_stage_ctx (d kwargs : Data) :
    dGet (id_stage d kwargs).2 "@context" = dGet kwargs "@context" := by
  unfold id_stage
  split
  · exact dGet_dDel_ne _ _ _ (by decide)
  · rfl

theorem actor_stage_ctx {be : Backend} {tag : ClassTag} {d kwargs : Data}
    {out : Data × Data} (h : actor_stage be tag d kwargs = .ok out) :
    dGet out.2 "@context" = dGet kwargs "@context" := by
  unfold actor_stage at h
  repeat' split at h
  all_goals first
    | exact (Except.noConfusion h)
    | (cases h; exact dGet_dDel_ne _ _ _ (by decide))
    | (cases h; rfl)

theorem object_stage_ctx {tag : ClassTag} {d kwargs : Data}
    {out : Data × Data} (h : object_stage tag d kwargs = .ok out) :
    dGet out.2 "@context" = dGet kwargs "@context" := by
  unfold object_stage at h
  repeat' split at h
  all_goals first
    | exact (Except.noConfusion h)
    | (cases h; exact dGet_dDel_ne _ _ _ (by decide))
    | (cases h; rfl)

theorem set_obj_field_ctx {d d1 : Data} {k : String} {v : J}
    (h : set_obj_field d k v = .ok d1) :
    dGet d1 "@context" = dGet d "@context" := by
  unfold set_obj_field at h
  repeat' split at h
  all_goals first
    | exact (Except.noConfusion h)
    | (cases h; exact dGet_dSet_ne _ _ _ _ (by decide))

theorem hook_init_ctx {fuel : Nat} {be : Backend} {tag : ClassTag}
    {d kw d' : Data} (h : hook_init fuel be tag d kw = .ok d') :
    dGet d' "@context" = dGet d "@context" := by
  match fuel with
  | 0 => exact (Except.noConfusion h)
  | fuel + 1 =>
    unfold hook_init at h
    rcases tag <;> simp only at h
    case image =>
      split at h
      · cases h
        exact dGet_dSet_ne _ _ _ _ (by decide)
      · exact (Except.noConfusion h)
    case note =>
      split at h
      · cases h
        rfl
      · cases h
        exact dGet_dSet_ne _ _ _ _ (by decide)
    case create =>
      split at h
      · exact (Except.noConfusion h)
      · split at h
        · exact (Except.noConfusion h)
        · rename_i d1 heq1
          have h1 : dGet d1 "@context" = dGet d "@context" := by
            split at heq1
            · cases heq1
              rfl
            · split at heq1
              · exact (Except.noConfusion heq1)
              · exact set_obj_field_ctx heq1
          split at h
          · cases h
            exact h1
          · split at h
            · rw [set_obj_field_ctx h]
              exact h1
            · rw [set_obj_field_ctx h,
                dGet_dSet_ne _ _ _ _ (by decide)]
              exact h1
    all_goals (cases h; rfl)

theorem init_activity_ctx {fuel : Nat} {be : Backend} {tag : ClassTag}
    {kwargs d : Data} (h : init_activity fuel be tag kwargs = .ok d) :
    dGet d "@context" = some (.arr (norm_ctx (dGet kwargs "@context"))) := by
  match fuel with
  | 0 => exact (Except.noConfusion h)
  | fuel + 1 =>
    unfold init_activity at h
    split at h
    · exact (Except.noConfusion h)
    rename_i kw1 htype
    split at h
    rename_i d1 kw2 hid
    split at h
    · exact (Except.noConfusion h)
    rename_i d2 kw3 hact
    split at h
    · exact (Except.noConfusion h)
    rename_i d3 kw4 hobj
    split at h
    · exact (Except.noConfusion h)
    rename_i d5 hhook
    cases h
    have hkw2 : dGet kw2 "@context" = dGet kw1 "@context" := by
      have := id_stage_ctx [("type", J.str tag.typeStr)] kw1
      rw [hid] at this
      exact this
    have hkw4 : dGet kw4 "@context" = dGet kwargs "@context" := by
      have h4 := object_stage_ctx hobj
      have h3 := actor_stage_ctx hact
      simp only at h4 h3
      rw [h4, h3, hkw2, type_stage_ctx htype]
    have h5 : dGet d5 "@context" =
        some (.arr (norm_ctx (dGet kw4 "@context"))) := by
      rw [hook_init_ctx hhook, dGet_dSet_self]
    rw [merge_kwargs_dGet _ _ _ (dHas_dDel_self kw4 "@context"), h5, hkw4]

/-! Claim theorems. -/

/-- C3, counterexample: the claim states that for every successfully
constructed activity and every caller-supplied `@context` the normalized
context contains the base ActivityStreams context and contains the security
context exactly once.  Constructing a Person with the caller-supplied
context list `[CTX_SECURITY, CTX_SECURITY]` succeeds, yet the normalized
context does not contain the base context at all and contains the security
context twice: a user-supplied context replaces the base context rather
than being appended to it, and a duplicated security context is never
deduplicated. -/
theorem claim3_counterexample :
    init_activity 5 beT .person
        [("@context", .arr [.str CTX_SECURITY, .str CTX_SECURITY])]
      = .ok [("type", .str "Person"),
             ("@context", .arr [.str CTX_SECURITY, .str CTX_SECURITY, extMap])]
    ∧ J.str CTX_AS ∉ [J.str CTX_SECURITY, J.str CTX_SECURITY, extMap]
    ∧ [J.str CTX_SECURITY, J.str CTX_SECURITY, extMap].count
        (J.str CTX_SECURITY) = 2 :=
  ⟨by decide, by decide, by decide⟩

/-- C3, amended: for every successfully constructed activity, whatever
`@context` the caller supplies, the normalized `@context` is a non-empty
list that contains the security context (at least once — exactly once
whenever the caller did not itself supply it more than once) and ends with
a mapping carrying both the `Hashtag` and `sensitive` keys; the base
ActivityStreams context is guaranteed to be present only when the caller
supplies no `@context`, in which case the context is exactly
`[base, security, extension-mapping]`. -/
theorem claim3_context_normalization {fuel : Nat} {be : Backend}
    {tag : ClassTag} {kwargs d : Data}
    (h : init_activity fuel be tag kwargs = .ok d) :
    ∃ xs : List J, dGet d "@context" = some (.arr xs) ∧ xs ≠ []
      ∧ J.str CTX_SECURITY ∈ xs
      ∧ (∃ kvs, xs.getLast? = some (.dict kvs)
          ∧ dGet kvs "Hashtag" = some (.str "as:Hashtag")
          ∧ dGet kvs "sensitive" = some (.str "as:sensitive"))
      ∧ (dHas kwargs "@context" = false →
          xs = [.str CTX_AS, .str CTX_SECURITY, extMap]) := by
  refine ⟨norm_ctx (dGet kwargs "@context"), init_activity_ctx h,
    norm_ctx_ne_nil _, norm_ctx_security _, norm_ctx_last _, ?_⟩
  intro hnone
  rw [dGet_none_of_dHas_false _ _ hnone, norm_ctx_none]

/-- C3, witness: the amended theorem applied to the construction of a bare
Person with no caller-supplied `@context`. -/
theorem claim3_witness :
    ∃ xs : List J,
      dGet [("type", J.str "Person"), ("@context", ctxDefault)] "@context"
        = some (.arr xs) ∧ xs ≠ []
      ∧ J.str CTX_SECURITY ∈ xs
      ∧ (∃ kvs, xs.getLast? = some (.dict kvs)
          ∧ dGet kvs "Hashtag" = some (.str "as:Hashtag")
          ∧ dGet kvs "sensitive" = some (.str "as:sensitive"))
      ∧ (dHas ([] : Data) "@context" = false →
          xs = [.str CTX_AS, .str CTX_SECURITY, extMap]) :=
  claim3_context_normalization
    (by decide :
      init_activity 5 beT .person []
        = .ok [("type", J.str "Person"), ("@context", ctxDefault)])

/-- C10, counterexample: the claim states that with `embed_object_id_only`
set and an inline object mapping, a malformed-activity error is raised when
the mapping has no `id` key.  For the empty inline mapping — which has no
`id` key — `to_dict` raises nothing and returns the data unchanged, because
the replacement branch is guarded by Python truthiness and an empty
dictionary is falsy. -/
theorem claim10_counterexample :
    to_dict [("type", J.str "Follow"), ("object", J.dict [])] false true
      = .ok [("type", J.str "Follow"), ("object", J.dict [])]
    ∧ dHas ([] : Data) "id" = false :=
  ⟨by decide, by decide⟩

/-- C10, amended: `to_dict` with `embed` returns the stored fields with the
`@context` and `signature` keys removed; with both flags false it returns
all stored fields unchanged; with `embed_object_id_only` and a non-empty
inline object mapping, the object is replaced by its `id` value and a
malformed-activity error is raised when that (non-empty) mapping has no
`id` key — an empty inline mapping is returned unchanged without error. -/
theorem claim10_to_dict {d kvs : Data}
    (hobj : dGet d "object" = some (.dict kvs)) (hne : kvs ≠ []) :
    (to_dict d true false = .ok (dDel (dDel d "@context") "signature"))
    ∧ (to_dict d false false = .ok d)
    ∧ (∀ idv, dGet kvs "id" = some idv →
        to_dict d false true = .ok (dSet d "object" idv))
    ∧ (dGet kvs "id" = none →
        to_dict d false true
          = .error (.badActivity "embedded object should have an id")) := by
  have htr : truthy (J.dict kvs) = true := by
    simpa [truthy] using hne
  refine ⟨?_, ?_, ?_, ?_⟩
  · simp [to_dict, to_dict_obj]
  · simp [to_dict, to_dict_obj]
  · intro idv hid
    simp [to_dict, to_dict_obj, htr, hobj, hid]
  · intro hid
    simp [to_dict, to_dict_obj, htr, hobj, hid]

/-- C10, witness: the amended theorem applied to a Like whose inline object
carries an `id`, together with the replacement equation it yields. -/
theorem claim10_witness :
    (to_dict [("type", J.str "Like"),
        ("object", J.dict [("type", J.str "Note"), ("id", J.str "n1")]),
        ("@context", ctxDefault)] true false
      = .ok [("type", J.str "Like"),
          ("object", J.dict [("type", J.str "Note"), ("id", J.str "n1")])])
    ∧ to_dict [("type", J.str "Like"),
        ("object", J.dict [("type", J.str "Note"), ("id", J.str "n1")]),
        ("@context", ctxDefault)] false true
      = .ok [("type", J.str "Like"), ("object", J.str "n1"),
          ("@context", ctxDefault)] := by
  have h := @claim10_to_dict
    [("type", J.str "Like"),
      ("object", J.dict [("type", J.str "Note"), ("id", J.str "n1")]),
      ("@context", ctxDefault)]
    [("type", J.str "Note"), ("id", J.str "n1")]
    (by decide) (by decide)
  refine ⟨by decide, ?_⟩
  have h3 := h.2.2.1 (J.str "n1") (by decide)
  rw [h3]
  decide

/-- C6, counterexample: the claim states that an activity's id is
write-once and that a second assignment attempt through the normal flow
(`outbox_set_id`, which every `post_to_outbox` run invokes with a freshly
minted URL) does not change it.  Assigning twice through `outbox_set_id`
succeeds both times and leaves the second value, so the re-assignment is
neither rejected nor is the first value preserved. -/
theorem claim6_counterexample :
    outbox_set_id .follow [("type", J.str "Follow")] "u1" "o1"
      = .ok [("type", J.str "Follow"), ("id", J.str "u1")]
    ∧ outbox_set_id .follow [("type", J.str "Follow"), ("id", J.str "u1")]
        "u2" "o2"
      = .ok [("type", J.str "Follow"), ("id", J.str "u2")]
    ∧ J.str "u2" ≠ J.str "u1" :=
  ⟨by decide, by decide, by decide⟩

/-- C6, amended: the id is assigned on each outbox post and the assignment
is an unconditional overwrite — whenever `outbox_set_id` succeeds, the
resulting `_data["id"]` is exactly the freshly supplied URI, whatever id
the activity carried before; nothing in the normal flow rejects a
re-assignment or preserves an earlier value, and each single
`post_to_outbox` run assigns the id exactly once. -/
theorem claim6_id_overwrite {tag : ClassTag} {d r : Data}
    {uri objId : String} (h : outbox_set_id tag d uri objId = .ok r) :
    dGet r "id" = some (.str uri) := by
  unfold outbox_set_id at h
  rcases tag <;> simp only at h
  case create =>
    repeat' split at h
    all_goals first
      | exact (Except.noConfusion h)
      | (cases h; rw [dGet_dSet_ne _ _ _ _ (by decide), dGet_dSet_self])
  all_goals (cases h; rw [dGet_dSet_self])

/-- C6, witness: the amended theorem applied to the second assignment of
the counterexample run. -/
theorem claim6_witness :
    dGet [("type", J.str "Follow"), ("id", J.str "u2")] "id"
      = some (J.str "u2") :=
  claim6_id_overwrite
    (by decide :
      outbox_set_id .follow [("type", J.str "Follow"), ("id", J.str "u1")]
        "u2" "o2" = .ok [("type", J.str "Follow"), ("id", J.str "u2")])

/-- C8, counterexample: the claim states that `parse_activity` fails with a
malformed-activity error whenever the payload's type is not a registered
variant.  For the type string `Foo`, which is not a registered variant, the
enum conversion `ActivityType(payload["type"])` raises the Python built-in
`ValueError` — not the library's `BadActivityError` — before any other
check runs. -/
theorem claim8_counterexample :
    parse_activity 5 beT [("type", J.str "Foo")] none
      = .error (.valueError "is not a valid ActivityType")
    ∧ ∀ msg : String,
        (Except.error (PyError.valueError "is not a valid ActivityType") :
          Except PyError (ClassTag × Data)) ≠ .error (.badActivity msg) := by
  refine ⟨by decide, ?_⟩
  intro msg h
  simp at h

/-- C8, amended: on a payload whose `type` is the string `s`,
`parse_activity` fails with the built-in `ValueError` when `s` is outside
the closed type enumeration (before the expected-type check); fails with
`UnexpectedActivityTypeError` when `expected` is given and differs from the
parsed type; fails with a malformed-activity error (`BadActivityError`)
when the type is an enumeration member without a registered variant; and
otherwise constructs the matched variant on the full payload with its full
field validation. -/
theorem claim8_parse_activity {fuel : Nat} {be : Backend} {payload : Data}
    {s : String} (htype : dGet payload "type" = some (J.str s)) :
    (activity_type_of_string s = none →
      ∀ expected, parse_activity (fuel + 1) be payload expected
        = .error (.valueError "is not a valid ActivityType"))
    ∧ (∀ t, activity_type_of_string s = some t →
        ∀ e, e ≠ t → parse_activity (fuel + 1) be payload (some e)
          = .error (.unexpectedActivityType "expected another activity"))
    ∧ (∀ t, activity_type_of_string s = some t → activity_cls t = none →
        parse_activity (fuel + 1) be payload none
          = .error (.badActivity "unsupported activity type"))
    ∧ (∀ t tag, activity_type_of_string s = some t →
        activity_cls t = some tag →
        parse_activity (fuel + 1) be payload none
          = (init_activity fuel be tag payload).map (fun d => (tag, d)))
    ∧ (∀ t tag, activity_type_of_string s = some t →
        activity_cls t = some tag →
        parse_activity (fuel + 1) be payload (some t)
          = (init_activity fuel be tag payload).map (fun d => (tag, d))) := by
  refine ⟨?_, ?_, ?_, ?_, ?_⟩
  · intro hnone expected
    cases expected <;>
      simp [parse_activity, htype, j_to_activity_type, hnone]
  · intro t ht e hne
    have hne2 : t ≠ e := Ne.symm hne
    simp [parse_activity, htype, j_to_activity_type, ht, hne2]
  · intro t ht hcls
    simp [parse_activity, htype, j_to_activity_type, ht, hcls]
  · intro t tag ht hcls
    rcases hi : init_activity fuel be tag payload with e | d <;>
      simp [parse_activity, htype, j_to_activity_type, ht, hcls, hi,
        Except.map]
  · intro t tag ht hcls
    rcases hi : init_activity fuel be tag payload with e | d <;>
      simp [parse_activity, htype, j_to_activity_type, ht, hcls, hi,
        Except.map]

/-- C8, witness: the amended theorem applied to the Follow payload (a
registered variant, no expected type) and to the unregistered enum member
`Reject`. -/
theorem claim8_witness :
    parse_activity 6 be0 followPayload none
      = (init_activity 5 be0 .follow followPayload).map (fun d => (.follow, d))
    ∧ parse_activity 6 be0 [("type", J.str "Reject")] none
      = .error (.badActivity "unsupported activity type") := by
  constructor
  · exact (@claim8_parse_activity 5 be0 followPayload "Follow"
      (by decide)).2.2.2.1 .follow .follow (by decide) (by decide)
  · exact (@claim8_parse_activity 5 be0 [("type", J.str "Reject")] "Reject"
      (by decide)).2.2.1 .reject (by decide) (by decide)

/-- C9: the claim (and the spec's per-variant table) places the drop of an
Announce with a non-URI legacy object reference at the pre-inbox check,
before persistence.  In the code the check lives in
`Announce._process_from_inbox` — the post-inbox hook, which runs after
`BACKEND.inbox_new` — so the activity IS persisted into the recipient's
inbox and only the share-recording is skipped (the code's own TODO comment,
"actually drop it without storing it ... move the check somewhere else",
confirms the stored-then-skipped behaviour is unintended).  Evaluating the
pipeline on such an Announce shows exactly one persistence effect, a grown
store, and no recorded inbox share. -/
theorem claim9_announce_legacy_persisted :
    process_from_inbox 20 be0 [] pB .announce annD
      = ⟨none, [.inboxNew pB annD], [annD]⟩
    ∧ starts_with "tag:x" "http" = false
    ∧ dGet annD "object" = some (J.str "tag:x") :=
  ⟨by decide, by decide, by decide⟩

/-- C4: an inbound Undo whose referenced object's actor differs from the
Undo's own actor fails in `Undo._pre_process_from_inbox` with
`BadActivityError` — the failure the spec's taxonomy names
AuthorizationMismatch — and the failure happens before any storage
mutation: the result carries the error, an empty effect trace (no
`inbox_new` persistence, no dispatched undo side effect) and an unchanged
inbox store. -/
theorem claim4_undo_ownership {fuel : Nat} {be : Backend}
    {store : List Data} {asActor d pU od pO : Data} {otag : ClassTag}
    (hA1 : get_actor (fuel + 1) be .undo d = .ok pU)
    (hA2 : get_actor fuel be .undo d = .ok pU)
    (hobj : get_object fuel be .undo d = .ok (otag, od))
    (hpO : get_actor fuel be otag od = .ok pO)
    (hblk : be.outboxIsBlocked asActor (getattr pU "id") = false)
    (hdup : inbox_get_by_iri store (getattr d "id") = false)
    (hne : getattr pU "id" ≠ getattr pO "id") :
    process_from_inbox (fuel + 1) be store asActor .undo d
      = ⟨some (.badActivity "cannot update"), [], store⟩ := by
  have hpre : hook_pre_inbox (fuel + 1) be .undo d
      = some (.error (.badActivity "cannot update")) := by
    simp [hook_pre_inbox, hobj, hA2, hpO, hne]
  simp [process_from_inbox, hA1, hblk, hdup, hpre]

/-- C4, witness: the ownership theorem applied to the third-party Undo of
the Follow by `a`. -/
theorem claim4_witness :
    process_from_inbox 20 be0 [] pB .undo undoD
      = ⟨some (.badActivity "cannot update"), [], []⟩ :=
  @claim4_undo_ownership 19 be0 [] pB undoD pDi fd pAi .follow
    (by decide) (by decide) (by decide) (by decide) (by decide) (by decide)
    (by decide)

/-- C1: with the storage collaborator modelled per the spec, a blocked
sender or a duplicate identifier short-circuits `process_from_inbox` to a
silent drop — no error, no effect, no store change, neither hook reached —
and an accepted first delivery followed by a second delivery of the same
activity leaves exactly one stored entry, the second call being a silent
no-op. -/
theorem claim1_inbox_drops {fuel : Nat} {be : Backend} {store : List Data}
    {asActor d actorP : Data} {tag : ClassTag}
    (hA : get_actor fuel be tag d = .ok actorP) :
    (be.outboxIsBlocked asActor (getattr actorP "id") = true →
      process_from_inbox fuel be store asActor tag d = ⟨none, [], store⟩)
    ∧ (be.outboxIsBlocked asActor (getattr actorP "id") = false →
       inbox_get_by_iri store (getattr d "id") = true →
      process_from_inbox fuel be store asActor tag d = ⟨none, [], store⟩)
    ∧ (be.outboxIsBlocked asActor (getattr actorP "id") = false →
       inbox_get_by_iri store (getattr d "id") = false →
       (process_from_inbox fuel be store asActor tag d).err = none →
       (process_from_inbox fuel be store asActor tag d).store = store ++ [d]
       ∧ (store.countP (fun e => getattr e "id" == getattr d "id") = 0 →
           (store ++ [d]).countP
             (fun e => getattr e "id" == getattr d "id") = 1)
       ∧ ∀ fuel2 actorP2, get_actor fuel2 be tag d = .ok actorP2 →
           be.outboxIsBlocked asActor (getattr actorP2 "id") = false →
           process_from_inbox fuel2 be (store ++ [d]) asActor tag d
             = ⟨none, [], store ++ [d]⟩) := by
  refine ⟨?_, ?_, ?_⟩
  · intro hblk
    simp [process_from_inbox, hA, hblk]
  · intro hblk hdup
    simp [process_from_inbox, hA, hblk, hdup]
  · intro hblk hdup
    have hdup2 : inbox_get_by_iri (store ++ [d]) (getattr d "id") = true := by
      simp [inbox_get_by_iri, List.any_append]
    have hB : store.countP (fun e => getattr e "id" == getattr d "id") = 0 →
        (store ++ [d]).countP
          (fun e => getattr e "id" == getattr d "id") = 1 := by
      intro h0
      simp [List.countP_append, h0, List.countP_cons]
    have hC : ∀ fuel2 actorP2, get_actor fuel2 be tag d = .ok actorP2 →
        be.outboxIsBlocked asActor (getattr actorP2 "id") = false →
        process_from_inbox fuel2 be (store ++ [d]) asActor tag d
          = ⟨none, [], store ++ [d]⟩ := by
      intro fuel2 actorP2 hA2 hblk2
      simp [process_from_inbox, hA2, hblk2, hdup2]
    intro herr
    refine ⟨?_, hB, hC⟩
    revert herr
    simp only [process_from_inbox, hA, hblk, hdup]
    simp only [Bool.false_eq_true, if_false]
    rcases hook_pre_inbox fuel be tag d with _ | pre
    · rcases hook_post_inbox fuel be asActor tag d with _ | ⟨oe, tr⟩
      · simp
      · rcases oe with _ | e <;> simp
    · rcases pre with e | u
      · simp
      · rcases hook_post_inbox fuel be asActor tag d with _ | ⟨oe, tr⟩
        · simp
        · rcases oe with _ | e <;> simp

/-- C1, witness: a Like from `a` delivered to `b`: a blocked sender is
silently dropped with nothing stored; the first accepted delivery stores
one entry (and records the like); redelivering the same activity is a
silent no-op leaving the single stored entry. -/
theorem claim1_witness :
    process_from_inbox 20 beBlocked [] pB .like likeD = ⟨none, [], []⟩
    ∧ process_from_inbox 20 be0 [] pB .like likeD
      = ⟨none, [.inboxNew pB likeD, .inboxLike pB likeD], [likeD]⟩
    ∧ process_from_inbox 20 be0 [likeD] pB .like likeD
      = ⟨none, [], [likeD]⟩
    ∧ [likeD].countP (fun e => getattr e "id" == getattr likeD "id") = 1 := by
  have h := @claim1_inbox_drops 20 be0 [] pB likeD pAi .like (by decide)
  have hB := @claim1_inbox_drops 20 beBlocked [] pB likeD pAi .like
    (by decide)
  have h3 := h.2.2 (by decide) (by decide) (by decide)
  refine ⟨hB.1 (by decide), by decide, ?_, ?_⟩
  · have := h3.2.2 20 pAi (by decide) (by decide)
    simp only [List.nil_append] at this
    exact this
  · have := h3.2.1 (by decide)
    simp only [List.nil_append] at this
    exact this

/-- C5: processing the Follow from `a` through `b`'s inbox auto-builds an
Accept whose actor is the Follow's object (`b`) and whose object is the
embedded Follow, posts that Accept through the full outbox pipeline
(persisting it into `b`'s outbox and delivering it to `a`'s inbox), and
records the new-follower relationship; `Follow._post_to_outbox` is an
explicit pass contributing no effect for every input, and the new-following
relationship is recorded exactly when the Accept is subsequently processed
through `a`'s inbox. -/
theorem clean_field_core_cases {a1 b : Data} {f : String}
    (h : clean_field_core a1 f = .ok b) :
    (b = a1 ∧ ∀ ty, dGet a1 "type" = some ty → ty ≠ J.str "Create")
    ∨ (b = a1 ∧ dGet a1 "type" = some (J.str "Create") ∧
        ∀ kvs, dGet a1 "object" = some (.dict kvs) → dHas kvs f = false)
    ∨ (∃ kvs, dGet a1 "type" = some (J.str "Create")
        ∧ dGet a1 "object" = some (.dict kvs)
        ∧ dHas kvs f = true ∧ b = dSet a1 "object" (.dict (dDel kvs f))) := by
  unfold clean_field_core at h
  split at h
  · exact (Except.noConfusion h)
  rename_i ty htyp
  split at h
  · rename_i hcreate
    subst hcreate
    split at h
    · exact (Except.noConfusion h)
    · rename_i kvs hobj
      split at h
      · rename_i hhas
        cases h
        exact Or.inr (Or.inr ⟨kvs, htyp, hobj, hhas, rfl⟩)
      · rename_i hhas
        cases h
        refine Or.inr (Or.inl ⟨rfl, htyp, ?_⟩)
        intro kvs' hobj'
        rw [hobj] at hobj'
        cases hobj'
        simpa using hhas
    · rename_i s hobj
      split at h
      · exact (Except.noConfusion h)
      · cases h
        refine Or.inr (Or.inl ⟨rfl, htyp, ?_⟩)
        intro kvs' hobj'
        rw [hobj] at hobj'
        cases hobj'
    · rename_i xs hobj
      split at h
      · exact (Except.noConfusion h)
      · cases h
        refine Or.inr (Or.inl ⟨rfl, htyp, ?_⟩)
        intro kvs' hobj'
        rw [hobj] at hobj'
        cases hobj'
    · exact (Except.noConfusion h)
  · rename_i hcreate
    cases h
    refine Or.inl ⟨rfl, ?_⟩
    intro ty' hty'
    rw [htyp] at hty'
    cases hty'
    exact hcreate

theorem clean_field_core_has {a1 b : Data} {f f' : String}
    (h : clean_field_core a1 f = .ok b) (hfo : f' ≠ "object")
    (hprev : dHas a1 f' = false) : dHas b f' = false := by
  rcases clean_field_core_cases h with ⟨hb, -⟩ | ⟨hb, -, -⟩ | ⟨kvs, -, -, -, hb⟩
    <;> subst hb
  · exact hprev
  · exact hprev
  · rw [dHas_dSet_ne _ _ _ _ hfo]
    exact hprev

theorem clean_field_core_type {a1 b : Data} {f : String}
    (h : clean_field_core a1 f = .ok b) :
    dGet b "type" = dGet a1 "type" := by
  rcases clean_field_core_cases h with ⟨hb, -⟩ | ⟨hb, -, -⟩ | ⟨kvs, -, -, -, hb⟩
    <;> subst hb
  · rfl
  · rfl
  · exact dGet_dSet_ne _ _ _ _ (by decide)

theorem clean_field_core_obj {a1 b : Data} {f : String}
    (h : clean_field_core a1 f = .ok b) :
    ∀ kvs, dGet b "type" = some (J.str "Create") →
      dGet b "object" = some (.dict kvs) → dHas kvs f = false := by
  intro kvs hbt hbo
  rcases clean_field_core_cases h with ⟨hb, hne⟩ | ⟨hb, -, hclean⟩ |
      ⟨kvs0, -, hobj, -, hb⟩
  · subst hb
    exact absurd rfl (hne _ hbt)
  · subst hb
    exact hclean _ hbo
  · subst hb
    rw [dGet_dSet_self] at hbo
    cases hbo
    exact dHas_dDel_self _ _

theorem clean_field_core_obj_keep {a1 b : Data} {f f' : String}
    (h : clean_field_core a1 f = .ok b)
    (hprev : ∀ kvs0, dGet a1 "type" = some (J.str "Create") →
      dGet a1 "object" = some (.dict kvs0) → dHas kvs0 f' = false) :
    ∀ kvs, dGet b "type" = some (J.str "Create") →
      dGet b "object" = some (.dict kvs) → dHas kvs f' = false := by
  intro kvs hbt hbo
  rcases clean_field_core_cases h with ⟨hb, hn⟩ | ⟨hb, ht, -⟩ |
      ⟨kvs0, ht, hobj, -, hb⟩
  · subst hb
    exact absurd rfl (hn _ hbt)
  · subst hb
    exact hprev _ ht hbo
  · subst hb
    rw [dGet_dSet_self] at hbo
    cases hbo
    exact dHas_dDel_false _ _ _ (hprev _ ht hobj)

theorem clean_field_pre_has {a : Data} (f : String) :
    dHas (if dHas a f then dDel a f else a) f = false := by
  by_cases hf : dHas a f
  · simp [hf, dHas_dDel_self]
  · simp [hf]

theorem clean_field_pre_get {a : Data} {f k : String} (hk : k ≠ f) :
    dGet (if dHas a f then dDel a f else a) k = dGet a k := by
  by_cases hf : dHas a f
  · simp [hf, dGet_dDel_ne _ _ _ hk]
  · simp [hf]

theorem clean_field_pre_has_ne {a : Data} {f k : String} (hk : k ≠ f) :
    dHas (if dHas a f then dDel a f else a) k = dHas a k := by
  by_cases hf : dHas a f
  · simp [hf, dHas_dDel_ne _ _ _ hk]
  · simp [hf]

/-- Lemma: `clean_activity` really strips the hidden-recipient fields: whenever it
succeeds, the result carries neither `bto` nor `bcc`, and when the result
is a Create with an inline object, the object carries neither field
either. -/
theorem clean_activity_strips {a c : Data} (h : clean_activity a = .ok c) :
    dHas c "bto" = false ∧ dHas c "bcc" = false
    ∧ ∀ kvs, dGet c "type" = some (J.str "Create") →
        dGet c "object" = some (.dict kvs) →
        dHas kvs "bto" = false ∧ dHas kvs "bcc" = false := by
  unfold clean_activity at h
  split at h
  · exact (Except.noConfusion h)
  rename_i a1 hbto
  unfold clean_field at hbto h
  have ha1bto : dHas a1 "bto" = false :=
    clean_field_core_has hbto (by decide) (clean_field_pre_has "bto")
  have hcbto : dHas c "bto" = false :=
    clean_field_core_has h (by decide)
      (by rw [clean_field_pre_has_ne (by decide)]; exact ha1bto)
  have hcbcc : dHas c "bcc" = false :=
    clean_field_core_has h (by decide) (clean_field_pre_has "bcc")
  refine ⟨hcbto, hcbcc, ?_⟩
  intro kvs ht ho
  constructor
  · have hprev1 := clean_field_core_obj hbto
    have hprev : ∀ kvs0,
        dGet (if dHas a1 "bcc" then dDel a1 "bcc" else a1) "type"
          = some (J.str "Create") →
        dGet (if dHas a1 "bcc" then dDel a1 "bcc" else a1) "object"
          = some (.dict kvs0) → dHas kvs0 "bto" = false := by
      intro kvs0 ht0 ho0
      rw [clean_field_pre_get (by decide)] at ht0
      rw [clean_field_pre_get (by decide)] at ho0
      exact hprev1 _ ht0 ho0
    exact clean_field_core_obj_keep h hprev _ ht ho
  · exact clean_field_core_obj h _ ht ho

theorem claim5_follow_accept_round_trip :
    parse_activity 32 be0 followPayload none = .ok (.follow, fd)
    ∧ build_accept 30 be0 fd = .ok acc0
    ∧ dGet acc0 "actor" = some (J.str "b")
    ∧ dGet fd "object" = some (J.str "b")
    ∧ to_dict fd true false = .ok fdEmb
    ∧ dGet acc0 "object" = some (.dict fdEmb)
    ∧ process_from_inbox 32 be0 [] pB .follow fd
      = ⟨none, [.inboxNew pB fd, .outboxNew pBi acc1,
          .postToRemoteInbox pBi acc1 (J.str "ia"), .newFollower pB fd],
          [fd]⟩
    ∧ (∀ fuel be asA d, hook_post_outbox fuel be asA .follow d
        = some (none, []))
    ∧ process_from_inbox 32 be0 [] pAi .accept acc1
      = ⟨none, [.inboxNew pAi acc1, .newFollowing pAi fd], [acc1]⟩ := by
  refine ⟨by decide, by decide, by decide, by decide, by decide, by decide,
    by decide, ?_, by decide⟩
  intro fuel be asA d
  rfl

/-- C7: in the delivery step of the outbox pipeline the activity is
serialized once — the single `clean_activity(self.to_dict())` value `act`,
computed before the delivery loop — with the hidden-recipient fields `bto`
and `bcc` removed from the activity and, when it is a Create, from its
wrapped object, and that identical payload is the one delivered to every
resolved recipient. -/
theorem claim7_single_serialization {fuel : Nat} {be : Backend}
    {tag : ClassTag} {d d1 actorP act : Data} {recps : List J}
    {tr1 : List Effect}
    (hset : outbox_set_id tag d (be.activityURL be.randomObjectID)
        be.randomObjectID = .ok d1)
    (hpre : hook_pre_outbox fuel be tag d1 = none
        ∨ hook_pre_outbox fuel be tag d1 = some (.ok ()))
    (hact : get_actor fuel be tag d1 = .ok actorP)
    (hrec : recipients fuel be tag d1 = .ok recps)
    (hcln : clean_activity d1 = .ok act)
    (hhook : hook_post_outbox fuel be actorP tag d1 = some (none, tr1)
        ∨ (hook_post_outbox fuel be actorP tag d1 = none ∧ tr1 = [])) :
    post_to_outbox fuel be tag d
      = ⟨none, [Effect.outboxNew actorP d1] ++ tr1 ++
          recps.map (fun r => .postToRemoteInbox actorP act r), d1⟩
    ∧ dHas act "bto" = false ∧ dHas act "bcc" = false
    ∧ (∀ kvs, dGet act "type" = some (J.str "Create") →
        dGet act "object" = some (.dict kvs) →
        dHas kvs "bto" = false ∧ dHas kvs "bcc" = false) := by
  have hstrip := clean_activity_strips hcln
  refine ⟨?_, hstrip.1, hstrip.2.1, hstrip.2.2⟩
  rcases hpre with hp | hp <;>
    rcases hhook with hh | ⟨hh, htr⟩ <;>
      (try subst htr) <;>
      simp [post_to_outbox, hset, hp, hact, hrec, hcln, hh]

theorem nodup_append_of_contains_false {x : J} {out : List J}
    (hn : out.Nodup) (hc : out.contains x = false) : (out ++ [x]).Nodup := by
  have hx : x ∉ out := by simpa using hc
  simp [List.nodup_append, hn, hx]

theorem append_endpoint_nodup {p : Data} {out out' : List J}
    (h : append_endpoint p out = .ok out') (hn : out.Nodup) :
    out'.Nodup := by
  unfold append_endpoint at h
  repeat' split at h
  all_goals first
    | exact (Except.noConfusion h)
    | (cases h; exact hn)
    | (cases h
       rename_i hg
       refine nodup_append_of_contains_false hn ?_
       simp only [Bool.not_eq_true'] at hg
       exact hg)
    | (cases h
       rename_i hg
       refine nodup_append_of_contains_false hn ?_
       have := hg.2
       simp only [Bool.not_eq_true'] at this
       exact this)

theorem col_loop_nodup {fuel : Nat} {be : Backend} {aid : J}
    (items : List J) {out out' : List J} {colA colA' : Option Data}
    (h : col_loop fuel be aid items out colA = .ok (out', colA'))
    (hn : out.Nodup) : out'.Nodup := by
  induction items generalizing out colA with
  | nil =>
      unfold col_loop at h
      cases h
      exact hn
  | cons it rest ih =>
      unfold col_loop at h
      split at h
      · exact ih h hn
      · repeat' split at h
        all_goals first
          | exact (Except.noConfusion h)
          | (rename_i happ
             exact ih h (append_endpoint_nodup happ hn))

theorem recip_loop_nodup {fuel : Nat} {be : Backend} {aid : J}
    (refs : List J) {out out' : List J} {colA colA' : Option Data}
    (h : recip_loop fuel be aid refs out colA = .ok (out', colA'))
    (hn : out.Nodup) : out'.Nodup := by
  induction refs generalizing out colA with
  | nil =>
      unfold recip_loop at h
      cases h
      exact hn
  | cons r rest ih =>
      unfold recip_loop at h
      split at h
      · exact ih h hn
      · repeat' split at h
        all_goals first
          | exact (Except.noConfusion h)
          | (rename_i happ
             exact ih h (append_endpoint_nodup happ hn))
          | (rename_i out1 colA1 hcol
             exact ih h (col_loop_nodup _ hcol hn))

theorem recipients_nodup {fuel : Nat} {be : Backend} {tag : ClassTag}
    {d : Data} {out : List J} (h : recipients fuel be tag d = .ok out) :
    out.Nodup := by
  unfold recipients at h
  split at h
  · exact (Except.noConfusion h)
  rename_i refs href
  split at h
  · exact (Except.noConfusion h)
  rename_i actorP hact
  split at h
  · exact (Except.noConfusion h)
  rename_i out1 colA1 hloop
  cases h
  exact recip_loop_nodup _ hloop List.nodup_nil

/-- C2, counterexample: the claim states that `recipients()` returns only
deliverable endpoint identifiers, excluding absent values, and that a
reference resolving to a Person uses the shared-inbox endpoint if declared
and otherwise the personal inbox.  Resolving a Note addressed to `r1`, `r2`
and `r3` yields `[None, S, ib3]`: `r1`'s endpoints mapping is truthy but
has no `sharedInbox`, so the code appends `endpoints.get("sharedInbox")`,
which is `None` — an absent value — and skips `r1`'s personal inbox; and
`r3`, whose declared shared inbox `S` is already present (contributed by
`r2`), falls through and contributes its personal inbox `ib3` instead of
using its declared shared inbox. -/
theorem claim2_counterexample :
    recipients 20 be0 .note noteR = .ok [J.null, J.str "S", J.str "ib3"]
    ∧ J.null ∈ [J.null, J.str "S", J.str "ib3"]
    ∧ getattr pR1 "endpoints" = J.dict [("x", J.str "y")]
    ∧ dGet [("x", J.str "y")] "sharedInbox" = none
    ∧ getattr pR3 "endpoints" = J.dict [("sharedInbox", J.str "S")]
    ∧ getattr pR3 "inbox" = J.str "ib3" :=
  ⟨by decide, by decide, by decide, by decide, by decide, by decide⟩

/-- C2, amended: every successful `recipients()` run returns a list with no
duplicates (each endpoint — including the `None` produced by a truthy
endpoints mapping without `sharedInbox` — is appended only when not already
present); raw references equal to the activity's own actor or the public
sentinel contribute nothing, so a Follow whose object actor equals the
activity's own actor resolves to the empty list; and two distinct
recipients resolving to the same shared inbox contribute that endpoint
exactly once (the second instead falls through to its personal inbox). -/
theorem claim2_recipients_amended {fuel : Nat} {be : Backend}
    {tag : ClassTag} {d : Data} {out : List J}
    (h : recipients fuel be tag d = .ok out) :
    out.Nodup
    ∧ recipients 20 be0 .follow fdSelf = .ok []
    ∧ recipients 20 be0 .note noteR = .ok [J.null, J.str "S", J.str "ib3"]
    ∧ [J.null, J.str "S", J.str "ib3"].count (J.str "S") = 1 :=
  ⟨recipients_nodup h, by decide, by decide, by decide⟩

/-- C2, witness: the amended theorem applied to the three-recipient Note
resolution. -/
theorem claim2_witness :
    ([J.null, J.str "S", J.str "ib3"] : List J).Nodup
    ∧ recipients 20 be0 .follow fdSelf = .ok []
    ∧ recipients 20 be0 .note noteR = .ok [J.null, J.str "S", J.str "ib3"]
    ∧ [J.null, J.str "S", J.str "ib3"].count (J.str "S") = 1 :=
  claim2_recipients_amended
    (by decide :
      recipients 20 be0 .note noteR = .ok [J.null, J.str "S", J.str "ib3"])

/-- C7, witness: the theorem applied to posting the Follow `fd` through
`be0`'s outbox pipeline. -/
theorem claim7_witness :
    post_to_outbox 20 be0 .follow fd
      = ⟨none, [Effect.outboxNew pAi fdOut] ++ [] ++
          ([J.str "ib"].map
            (fun r => .postToRemoteInbox pAi fdOut r)), fdOut⟩
    ∧ dHas fdOut "bto" = false ∧ dHas fdOut "bcc" = false
    ∧ (∀ kvs, dGet fdOut "type" = some (J.str "Create") →
        dGet fdOut "object" = some (.dict kvs) →
        dHas kvs "bto" = false ∧ dHas kvs "bcc" = false) :=
  @claim7_single_serialization 20 be0 .follow fd fdOut pAi fdOut
    [J.str "ib"] []
    (by decide) (Or.inl (by decide)) (by decide) (by decide) (by decide)
    (Or.inl (by decide))

end AP
